import Mathlib

/-!
Push-constant and UBO range layout (`src/intel/vulkan/anv_nir_compute_push_layout.c`)

A shallow embedding of `anv_nir_compute_push_layout` and
`anv_nir_validate_push_layout`.

Conventions of the embedding:

* a C `unsigned` is a natural number below `2 ^ 32 = 4294967296`; every
  `unsigned` addition and subtraction of the source is reduced modulo
  `4294967296` where the source computes it;
* the shader IR is a list of functions, a function has an optional body
  (`impl`), a body is a list of blocks and a block a list of instructions;
* a four-element C array is a function on `Fin 4`;
* an `assert` does not stop the embedding: `anv_nir_compute_push_layout`
  runs the function as a build with `NDEBUG` does and records, next to the
  final state, whether each assertion held and whether every store to
  `push_ranges` was inside the array; `anv_nir_compute_push_layout_checked`
  is the run that fails as soon as one of them does not hold;
* what the headers outside this file declare (two constants, the widths of
  the `start` / `length` fields, the UBO analysis and the SHA-1 routine) is
  collected in `externals` and taken as a parameter.
-/

namespace Anv

/-! ## Data model -/

/-- Shader stages (`gl_shader_stage`); the source only tests for the compute stage. -/
inductive gl_shader_stage
  | MESA_SHADER_VERTEX
  | MESA_SHADER_TESS_CTRL
  | MESA_SHADER_TESS_EVAL
  | MESA_SHADER_GEOMETRY
  | MESA_SHADER_FRAGMENT
  | MESA_SHADER_COMPUTE
  deriving DecidableEq, Repr

/-- Intrinsic opcodes: the two the source names, and every other one. -/
inductive nir_intrinsic_op
  | load_push_constant
  | load_uniform
  | other_intrinsic (id : Nat)
  deriving DecidableEq, Repr

/-- An intrinsic instruction with the two constant indices the source reads,
`base` (`nir_intrinsic_base`) and `range` (`nir_intrinsic_range`), both read
as `unsigned`. -/
structure nir_intrinsic_instr where
  intrinsic : nir_intrinsic_op
  base : Nat
  range : Nat
  deriving DecidableEq, Repr

/-- An instruction: an intrinsic (`nir_instr_type_intrinsic`) or any other
instruction type. -/
inductive nir_instr
  | intrinsic (intrin : nir_intrinsic_instr)
  | other_instr (id : Nat)
  deriving DecidableEq, Repr

/-- A basic block: its instructions in order. -/
structure nir_block where
  instrs : List nir_instr
  deriving DecidableEq, Repr

/-- A function; `impl = none` is the source's `!function->impl`. -/
structure nir_function where
  impl : Option (List nir_block)
  deriving DecidableEq, Repr

/-- The shader module: `info.stage`, the functions and `num_uniforms`. -/
structure nir_shader where
  stage : gl_shader_stage
  functions : List nir_function
  num_uniforms : Nat
  deriving DecidableEq, Repr

/-- One UBO range of `prog_data->ubo_ranges` (`struct brw_ubo_range`). -/
structure brw_ubo_range where
  block : Nat
  start : Nat
  length : Nat
  deriving DecidableEq, Repr

/-- One entry of `map->surface_to_descriptor` (`struct anv_pipeline_binding`),
with the three fields the source copies. -/
structure anv_pipeline_binding where
  set : Nat
  index : Nat
  dynamic_offset_index : Nat
  deriving DecidableEq, Repr

/-- One slot of `map->push_ranges` (`struct anv_push_range`). -/
structure anv_push_range where
  set : Nat
  index : Nat
  dynamic_offset_index : Nat
  start : Nat
  length : Nat
  deriving DecidableEq, Repr

/-- The slot `memset` leaves: every field zero. -/
def empty_push_range : anv_push_range :=
  { set := 0, index := 0, dynamic_offset_index := 0, start := 0, length := 0 }

/-- The fields of `struct brw_stage_prog_data` the source touches; `param`
is the element count of the array `ralloc_array` allocates. -/
structure brw_stage_prog_data where
  nr_params : Nat
  param : Nat
  ubo_ranges : Fin 4 → brw_ubo_range

/-- The fields of `struct anv_pipeline_bind_map` the source touches. -/
structure anv_pipeline_bind_map where
  surface_to_descriptor : Nat → anv_pipeline_binding
  push_ranges : Fin 4 → anv_push_range
  push_sha1 : Nat

/-- The fields of `pdevice->info` the source reads. -/
structure gen_device_info where
  gen : Int
  is_haswell : Bool
  deriving DecidableEq, Repr

/-- The field of `pdevice->compiler` the source reads. -/
structure brw_compiler where
  scalar_stage : gl_shader_stage → Bool

/-- The physical device: `info` and `compiler`. -/
structure anv_physical_device where
  info : gen_device_info
  compiler : brw_compiler

/-- What the source uses and other files declare.
`ANV_DESCRIPTOR_SET_PUSH_CONSTANTS` is the owner tag of the push-constant
range; `subgroup_id_offset` is
`offsetof(struct anv_push_constants, cs.subgroup_id)`; `ubo_range_bits` is
the width in bits of the `length` field of `struct brw_ubo_range`;
`push_range_bits` is the width in bits of the `start` and `length` fields of
`struct anv_push_range`; `brw_nir_analyze_ubo_ranges` fills the four
`ubo_ranges` from the compiler and the shader; `_mesa_sha1_compute` digests
the bytes of the `push_ranges` array. -/
structure externals where
  ANV_DESCRIPTOR_SET_PUSH_CONSTANTS : Nat
  subgroup_id_offset : Nat
  ubo_range_bits : Nat
  push_range_bits : Nat
  brw_nir_analyze_ubo_ranges : brw_compiler → nir_shader → Fin 4 → brw_ubo_range
  _mesa_sha1_compute : (Fin 4 → anv_push_range) → Nat

/-! ## Helper macros -/

/-- Modelled from the spec: `align_up(value, granularity)`, the least multiple
of the granularity that is not below the value; the `ALIGN` helper itself is
defined in a header outside this file. -/
def ALIGN (value alignment : Nat) : Nat :=
  (value + alignment - 1) / alignment * alignment

/-- Modelled from the spec: the rounding-up division `ceil(a / b)`; the
`DIV_ROUND_UP` macro itself is defined in a header outside this file. Its
operand is an `unsigned`, so the sum is taken modulo `2 ^ 32`. -/
def DIV_ROUND_UP (a b : Nat) : Nat :=
  ((a + b - 1) % 4294967296) / b

/-! ## Range scanner (lines 37-57) -/

/-- The body of the innermost loop: a `load_push_constant` widens the
interval, every other instruction is skipped. -/
def scan_instr (acc : Nat × Nat) (instr : nir_instr) : Nat × Nat :=
  match instr with
  | nir_instr.intrinsic intrin =>
    if intrin.intrinsic = nir_intrinsic_op.load_push_constant then
      (min acc.1 intrin.base, max acc.2 ((intrin.base + intrin.range) % 4294967296))
    else acc
  | nir_instr.other_instr _ => acc

/-- The loop `nir_foreach_instr` over one block. -/
def scan_block (acc : Nat × Nat) (block : nir_block) : Nat × Nat :=
  block.instrs.foldl scan_instr acc

/-- The loop `nir_foreach_block` over one function; a function without `impl` is skipped. -/
def scan_function (acc : Nat × Nat) (function : nir_function) : Nat × Nat :=
  match function.impl with
  | none => acc
  | some blocks => blocks.foldl scan_block acc

/-- The loop `nir_foreach_function`, from `push_start = UINT_MAX, push_end = 0`. -/
def scan_shader (nir : nir_shader) : Nat × Nat :=
  nir.functions.foldl scan_function (4294967295, 0)

/-! ## Stage adjustment, alignment and sizing (lines 59-77, 102-115) -/

/-- The test `nir->info.stage == MESA_SHADER_COMPUTE`. -/
def is_compute (nir : nir_shader) : Bool :=
  decide (nir.stage = gl_shader_stage.MESA_SHADER_COMPUTE)

/-- The value of `has_push_intrinsic` (line 59). -/
def has_push_intrinsic (nir : nir_shader) : Bool :=
  decide ((scan_shader nir).1 ≤ (scan_shader nir).2)

/-- The outcome of `assert(push_end <= offsetof(..., cs.subgroup_id))`;
`true` where the assertion is not reached. -/
def stage_assert (e : externals) (nir : nir_shader) : Bool :=
  if is_compute nir then decide ((scan_shader nir).2 ≤ e.subgroup_id_offset) else true

/-- The value of `push_end` after line 71. -/
def push_end_of (e : externals) (nir : nir_shader) : Nat :=
  if is_compute nir then e.subgroup_id_offset % 4294967296 else (scan_shader nir).2

/-- The value of `push_start` after lines 76-77: `MIN2` and then `&= ~31u`. -/
def push_start_of (e : externals) (nir : nir_shader) : Nat :=
  (min (scan_shader nir).1 (push_end_of e nir)) &&& 4294967264

/-- The value of `align` (line 105). -/
def align_of (pdevice : anv_physical_device) (nir : nir_shader) : Nat :=
  if pdevice.compiler.scalar_stage nir.stage then 4 else 16

/-- The `unsigned` difference `push_end - push_start`. -/
def push_size_of (e : externals) (nir : nir_shader) : Nat :=
  (push_end_of e nir + 4294967296 - push_start_of e nir) % 4294967296

/-- The value stored in `nir->num_uniforms` (line 107). -/
def num_uniforms_of (e : externals) (pdevice : anv_physical_device) (nir : nir_shader) : Nat :=
  ALIGN (push_size_of e nir) (align_of pdevice nir) % 4294967296

/-- The local `push_constant_range` (lines 111-115); `start` and `length`
are stored in fields of `push_range_bits` bits. -/
def push_constant_range_of (e : externals) (nir : nir_shader) : anv_push_range :=
  { set := e.ANV_DESCRIPTOR_SET_PUSH_CONSTANTS
    index := 0
    dynamic_offset_index := 0
    start := (push_start_of e nir / 32) % 2 ^ e.push_range_bits
    length := DIV_ROUND_UP (push_size_of e nir) 32 % 2 ^ e.push_range_bits }

/-! ## Rewriter (lines 79-100) -/

/-- The body of the rewriting loop. -/
def rewrite_instr (push_start : Nat) (instr : nir_instr) : nir_instr :=
  match instr with
  | nir_instr.intrinsic intrin =>
    if intrin.intrinsic = nir_intrinsic_op.load_push_constant then
      nir_instr.intrinsic
        { intrinsic := nir_intrinsic_op.load_uniform
          base := (intrin.base + 4294967296 - push_start) % 4294967296
          range := intrin.range }
    else nir_instr.intrinsic intrin
  | nir_instr.other_instr id => nir_instr.other_instr id

/-- The rewriting loop over one block. -/
def rewrite_block (push_start : Nat) (block : nir_block) : nir_block :=
  { instrs := block.instrs.map (rewrite_instr push_start) }

/-- The rewriting loop over one function; a function without `impl` is skipped. -/
def rewrite_function (push_start : Nat) (function : nir_function) : nir_function :=
  match function.impl with
  | none => function
  | some blocks => { impl := some (blocks.map (rewrite_block push_start)) }

/-- The rewriting loop over the shader. -/
def rewrite_shader (push_start : Nat) (nir : nir_shader) : nir_shader :=
  { nir with functions := nir.functions.map (rewrite_function push_start) }

/-- The shader after lines 79-107: rewritten when `has_push_intrinsic`, and
with `num_uniforms` set. -/
def nir_after (e : externals) (pdevice : anv_physical_device) (nir : nir_shader) : nir_shader :=
  { (if has_push_intrinsic nir then rewrite_shader (push_start_of e nir) nir else nir) with
    num_uniforms := num_uniforms_of e pdevice nir }

/-! ## Range packer (lines 117-176) -/

/-- The path test of line 117. -/
def packed_path (pdevice : anv_physical_device) (nir : nir_shader) : Bool :=
  (decide (pdevice.info.gen ≥ 8) || pdevice.info.is_haswell) && !is_compute nir

/-- One iteration of the capacity loop (lines 128-130) on
`(total_push_regs, ubo_ranges)`. -/
def trim_step (e : externals) (st : Nat × (Fin 4 → brw_ubo_range)) (i : Fin 4) :
    Nat × (Fin 4 → brw_ubo_range) :=
  let ubo_ranges :=
    if (st.1 + (st.2 i).length) % 4294967296 > 64 then
      Function.update st.2 i
        { st.2 i with length := ((64 + 4294967296 - st.1) % 4294967296) % 2 ^ e.ubo_range_bits }
    else st.2
  ((st.1 + (ubo_ranges i).length) % 4294967296, ubo_ranges)

/-- The capacity loop (lines 126-131), `i = 0, 1, 2, 3`. -/
def trim_ubo_ranges (e : externals) (total_push_regs : Nat) (ubo_ranges : Fin 4 → brw_ubo_range) :
    Nat × (Fin 4 → brw_ubo_range) :=
  ([0, 1, 2, 3] : List (Fin 4)).foldl (trim_step e) (total_push_regs, ubo_ranges)

/-- The store `map->push_ranges[n] = range` for a signed index `n`: a store
outside `0..3` does not land in the array. -/
def store_push_range (push_ranges : Fin 4 → anv_push_range) (n : Int) (range : anv_push_range) :
    Fin 4 → anv_push_range :=
  match n with
  | Int.ofNat k => if h : k < 4 then Function.update push_ranges ⟨k, h⟩ range else push_ranges
  | Int.negSucc _ => push_ranges

/-- Whether the signed index `n` is inside `push_ranges`. -/
def index_in_bounds (n : Int) : Bool :=
  decide (0 ≤ n) && decide (n < 4)

/-- The slot built at lines 155-161 from a UBO range and its binding. -/
def ubo_push_range (e : externals) (map : anv_pipeline_bind_map) (ubo_range : brw_ubo_range) :
    anv_push_range :=
  { set := (map.surface_to_descriptor ubo_range.block).set
    index := (map.surface_to_descriptor ubo_range.block).index
    dynamic_offset_index := (map.surface_to_descriptor ubo_range.block).dynamic_offset_index
    start := ubo_range.start % 2 ^ e.push_range_bits
    length := ubo_range.length % 2 ^ e.push_range_bits }

/-- One iteration of the placement loop (lines 148-161) on
`(n, push_ranges, every store so far was in bounds)`. -/
def place_step (e : externals) (map : anv_pipeline_bind_map) (ubo_ranges : Fin 4 → brw_ubo_range)
    (st : Int × (Fin 4 → anv_push_range) × Bool) (i : Fin 4) :
    Int × (Fin 4 → anv_push_range) × Bool :=
  if (ubo_ranges i).length = 0 then st
  else
    (st.1 - 1,
     store_push_range st.2.1 st.1 (ubo_push_range e map (ubo_ranges i)),
     st.2.2 && index_in_bounds st.1)

/-- The placement loop (lines 145-162), `i = 3, 2, 1, 0`, from `n = 3`. -/
def place_ubo_ranges (e : externals) (map : anv_pipeline_bind_map)
    (ubo_ranges : Fin 4 → brw_ubo_range) (push_ranges : Fin 4 → anv_push_range) :
    Int × (Fin 4 → anv_push_range) × Bool :=
  ([3, 2, 1, 0] : List (Fin 4)).foldl (place_step e map ubo_ranges) (3, push_ranges, true)

/-- The store of lines 164-165 on `(n, push_ranges, stores in bounds)`. -/
def place_push_constant_range (push_constant_range : anv_push_range)
    (st : Int × (Fin 4 → anv_push_range) × Bool) : Int × (Fin 4 → anv_push_range) × Bool :=
  if push_constant_range.length > 0 then
    (st.1 - 1, store_push_range st.2.1 st.1 push_constant_range, st.2.2 && index_in_bounds st.1)
  else st

/-- The slot stores of the packed path (lines 145-165). -/
def pack_push_ranges (e : externals) (map : anv_pipeline_bind_map)
    (ubo_ranges : Fin 4 → brw_ubo_range) (push_constant_range : anv_push_range)
    (push_ranges : Fin 4 → anv_push_range) : Int × (Fin 4 → anv_push_range) × Bool :=
  place_push_constant_range push_constant_range (place_ubo_ranges e map ubo_ranges push_ranges)

/-- The four ranges `brw_nir_analyze_ubo_ranges` writes to
`prog_data->ubo_ranges` at line 119, from the shader as lines 79-107 left it. -/
def analysed_ubo_ranges (e : externals) (pdevice : anv_physical_device) (nir : nir_shader) :
    Fin 4 → brw_ubo_range :=
  e.brw_nir_analyze_ubo_ranges pdevice.compiler (nir_after e pdevice nir)

/-- The final state of one call, with the values of the locals and the
outcome of the two assertions and of the bounds of the slot stores. -/
structure layout_result where
  nir : nir_shader
  prog_data : brw_stage_prog_data
  map : anv_pipeline_bind_map
  push_start : Nat
  push_end : Nat
  push_constant_range : anv_push_range
  total_push_regs : Nat
  stage_assert : Bool
  capacity_assert : Bool
  stores_in_bounds : Bool

/-- The function `anv_nir_compute_push_layout` (lines 28-185). -/
def anv_nir_compute_push_layout (e : externals) (pdevice : anv_physical_device)
    (nir : nir_shader) (prog_data : brw_stage_prog_data) (map : anv_pipeline_bind_map) :
    layout_result :=
  let push_ranges0 : Fin 4 → anv_push_range := fun _ => empty_push_range
  let nir1 := nir_after e pdevice nir
  let nr_params := num_uniforms_of e pdevice nir / 4
  let push_constant_range := push_constant_range_of e nir
  if packed_path pdevice nir then
    let analysed := analysed_ubo_ranges e pdevice nir
    let trimmed := trim_ubo_ranges e push_constant_range.length analysed
    let packed := pack_push_ranges e map trimmed.2 push_constant_range push_ranges0
    let push_ranges := packed.2.1
    { nir := nir1
      prog_data := { nr_params := nr_params, param := nr_params, ubo_ranges := trimmed.2 }
      map := { surface_to_descriptor := map.surface_to_descriptor
               push_ranges := push_ranges
               push_sha1 := e._mesa_sha1_compute push_ranges }
      push_start := push_start_of e nir
      push_end := push_end_of e nir
      push_constant_range := push_constant_range
      total_push_regs := trimmed.1
      stage_assert := stage_assert e nir
      capacity_assert := decide (trimmed.1 ≤ 64)
      stores_in_bounds := packed.2.2 }
  else
    let push_ranges := Function.update push_ranges0 0 push_constant_range
    { nir := nir1
      prog_data := { nr_params := nr_params, param := nr_params,
                     ubo_ranges := prog_data.ubo_ranges }
      map := { surface_to_descriptor := map.surface_to_descriptor
               push_ranges := push_ranges
               push_sha1 := e._mesa_sha1_compute push_ranges }
      push_start := push_start_of e nir
      push_end := push_end_of e nir
      push_constant_range := push_constant_range
      total_push_regs := push_constant_range.length
      stage_assert := stage_assert e nir
      capacity_assert := true
      stores_in_bounds := true }

/-- The run that stops at a failed assertion or at a store outside
`push_ranges`: `none` when one of them happens. -/
def anv_nir_compute_push_layout_checked (e : externals) (pdevice : anv_physical_device)
    (nir : nir_shader) (prog_data : brw_stage_prog_data) (map : anv_pipeline_bind_map) :
    Option layout_result :=
  let r := anv_nir_compute_push_layout e pdevice nir prog_data map
  if r.stage_assert && r.capacity_assert && r.stores_in_bounds then some r else none

/-! ## Validator (lines 187-206) -/

/-- The value of `prog_data_push_size` (lines 192-194). -/
def prog_data_push_size (prog_data : brw_stage_prog_data) : Nat :=
  ([0, 1, 2, 3] : List (Fin 4)).foldl
    (fun acc i => (acc + (prog_data.ubo_ranges i).length) % 4294967296)
    (DIV_ROUND_UP prog_data.nr_params 8)

/-- The value of `bind_map_push_size` (lines 196-198). -/
def bind_map_push_size (map : anv_pipeline_bind_map) : Nat :=
  ([0, 1, 2, 3] : List (Fin 4)).foldl
    (fun acc i => (acc + (map.push_ranges i).length) % 4294967296) 0

/-- The function `anv_nir_validate_push_layout` in a build without `NDEBUG`:
`true` when its assertion holds. -/
def anv_nir_validate_push_layout (prog_data : brw_stage_prog_data)
    (map : anv_pipeline_bind_map) : Bool :=
  decide (prog_data_push_size prog_data = bind_map_push_size map)

/-! ## Vocabulary of the specification -/

/-- The `load_push_constant` intrinsic of one instruction, if it is one. -/
def instr_loads (instr : nir_instr) : List nir_intrinsic_instr :=
  match instr with
  | nir_instr.intrinsic intrin =>
    if intrin.intrinsic = nir_intrinsic_op.load_push_constant then [intrin] else []
  | nir_instr.other_instr _ => []

/-- The push-constant loads of one block, in order. -/
def block_loads (block : nir_block) : List nir_intrinsic_instr :=
  block.instrs.flatMap instr_loads

/-- The push-constant loads of one function; none without a body. -/
def function_loads (function : nir_function) : List nir_intrinsic_instr :=
  match function.impl with
  | none => []
  | some blocks => blocks.flatMap block_loads

/-- Every push-constant load of the module, in visiting order. -/
def push_loads (nir : nir_shader) : List nir_intrinsic_instr :=
  nir.functions.flatMap function_loads

/-- One load widening the interval `[min base, max (base + range))`. -/
def widen (acc : Nat × Nat) (intrin : nir_intrinsic_instr) : Nat × Nat :=
  (min acc.1 intrin.base, max acc.2 ((intrin.base + intrin.range) % 4294967296))

/-- The sum of the lengths of the four slots, as a natural number. -/
def slot_length_sum (push_ranges : Fin 4 → anv_push_range) : Nat :=
  (push_ranges 0).length + (push_ranges 1).length + (push_ranges 2).length +
    (push_ranges 3).length

/-- A slot is occupied when its length is not zero. -/
def occupied (range : anv_push_range) : Prop :=
  range.length ≠ 0

/-- Occupancy of a slot is decidable. -/
instance occupied_decidable (range : anv_push_range) : Decidable (occupied range) :=
  inferInstanceAs (Decidable (range.length ≠ 0))

/-- The capacity trim in the words of the specification: from a running
total, each length in turn is clamped to what is left of the 64 registers. -/
def clamp_lengths (total : Nat) : List Nat → List Nat
  | [] => []
  | len :: rest => min len (64 - total) :: clamp_lengths (total + min len (64 - total)) rest

/-- The candidates that are placed, in placement order: indices 3, 2, 1, 0
with a non-zero length. -/
def nonempty_candidates (ubo_ranges : Fin 4 → brw_ubo_range) : List (Fin 4) :=
  ([3, 2, 1, 0] : List (Fin 4)).filter (fun i => decide ((ubo_ranges i).length ≠ 0))

/-- The packed path in the words of the specification: with `m` non-empty
candidates, slot `3 - j` holds the `j`-th of them, the slot below holds the
push-constant range when its length is not zero, and the rest is empty. -/
def packed_slot (e : externals) (map : anv_pipeline_bind_map)
    (ubo_ranges : Fin 4 → brw_ubo_range) (push_constant_range : anv_push_range) (k : Fin 4) :
    anv_push_range :=
  if 4 ≤ k.val + (nonempty_candidates ubo_ranges).length then
    ubo_push_range e map (ubo_ranges ((nonempty_candidates ubo_ranges).getD (3 - k.val) 0))
  else if push_constant_range.length ≠ 0 ∧
      k.val + 1 + (nonempty_candidates ubo_ranges).length = 4 then
    push_constant_range
  else empty_push_range

/-- The rewrite in the words of the specification: a push-constant load
becomes a uniform load at `base - push_start`; nothing else changes. -/
def relocate_instr (push_start : Nat) (instr : nir_instr) : nir_instr :=
  match instr with
  | nir_instr.intrinsic intrin =>
    if intrin.intrinsic = nir_intrinsic_op.load_push_constant then
      nir_instr.intrinsic
        { intrinsic := nir_intrinsic_op.load_uniform
          base := intrin.base - push_start
          range := intrin.range }
    else nir_instr.intrinsic intrin
  | nir_instr.other_instr id => nir_instr.other_instr id

/-- The specification's rewrite over one function. -/
def relocate_function (push_start : Nat) (function : nir_function) : nir_function :=
  { impl := function.impl.map
      (fun blocks => blocks.map (fun block => { instrs := block.instrs.map (relocate_instr push_start) })) }

/-! ## Sample inputs -/

/-- Sample externals: owner tag 252, subgroup-id offset 140, the given field
widths, an analysis that returns candidate `i` with block `i`, start `i` and
the given length, and a digest that sums the slot lengths. -/
def sample_externals (ubo_bits range_bits : Nat) (lengths : Fin 4 → Nat) : externals :=
  { ANV_DESCRIPTOR_SET_PUSH_CONSTANTS := 252
    subgroup_id_offset := 140
    ubo_range_bits := ubo_bits
    push_range_bits := range_bits
    brw_nir_analyze_ubo_ranges := fun _ _ i => { block := i.val, start := i.val, length := lengths i }
    _mesa_sha1_compute := fun push_ranges => slot_length_sum push_ranges }

/-- A sample device of the given generation, not Haswell, every stage scalar. -/
def sample_device (gen : Int) : anv_physical_device :=
  { info := { gen := gen, is_haswell := false }
    compiler := { scalar_stage := fun _ => true } }

/-- A `load_push_constant` of the given base and range. -/
def push_load (base range : Nat) : nir_instr :=
  nir_instr.intrinsic { intrinsic := nir_intrinsic_op.load_push_constant, base := base, range := range }

/-- A module of the given stage: one function without a body, and one whose
single block holds the given instructions. -/
def sample_shader (stage : gl_shader_stage) (instrs : List nir_instr) : nir_shader :=
  { stage := stage
    functions := [{ impl := none }, { impl := some [{ instrs := instrs }] }]
    num_uniforms := 7 }

/-- Program data on entry, with the given lengths already in `ubo_ranges`. -/
def sample_prog_data (lengths : Fin 4 → Nat) : brw_stage_prog_data :=
  { nr_params := 0
    param := 0
    ubo_ranges := fun i => { block := 0, start := 0, length := lengths i } }

/-- A bind map on entry: block `b` is bound to set `b`, index `10 + b`,
dynamic offset index `20 + b`; the slots hold stale data. -/
def sample_map : anv_pipeline_bind_map :=
  { surface_to_descriptor := fun b => { set := b, index := 10 + b, dynamic_offset_index := 20 + b }
    push_ranges := fun _ => { set := 9, index := 9, dynamic_offset_index := 9, start := 9, length := 9 }
    push_sha1 := 0 }

/-! ## Lemmas: arithmetic of the helpers -/

theorem land_not31 (x : Nat) (hx : x < 4294967296) : x &&& 4294967264 = x / 32 * 32 := by
  have h : x / 32 * 32 = (x >>> 5) <<< 5 := by
    simp [Nat.shiftRight_eq_div_pow, Nat.shiftLeft_eq]
  rw [h]
  apply Nat.eq_of_testBit_eq
  intro i
  simp only [Nat.testBit_and, Nat.testBit_shiftLeft, Nat.testBit_shiftRight]
  by_cases hi : i < 32
  · by_cases h5 : 5 ≤ i
    · have hm : Nat.testBit 4294967264 i = true := by
        interval_cases i <;> decide
      have e : 5 + (i - 5) = i := by omega
      simp [hm, h5, e]
    · have hm : Nat.testBit 4294967264 i = false := by
        interval_cases i <;> decide
      simp [hm, h5]
  · have hx2 : x < 2 ^ i := by
      calc x < 2 ^ 32 := by simpa using hx
        _ ≤ 2 ^ i := Nat.pow_le_pow_right (by decide) (by omega)
    have e : 5 + (i - 5) = i := by omega
    simp [Nat.testBit_lt_two_pow hx2, e]

theorem land_not31_le (x : Nat) : x &&& 4294967264 ≤ x := Nat.and_le_left

/-! ## Lemmas: the scanner -/

theorem scan_block_eq (acc : Nat × Nat) (block : nir_block) :
    scan_block acc block = (block_loads block).foldl widen acc := by
  unfold scan_block block_loads
  induction block.instrs generalizing acc with
  | nil => rfl
  | cons instr rest ih =>
    rw [List.foldl_cons, ih, List.flatMap_cons, List.foldl_append]
    congr 1
    cases instr with
    | intrinsic intrin =>
      by_cases h : intrin.intrinsic = nir_intrinsic_op.load_push_constant <;>
        simp [scan_instr, instr_loads, h, widen]
    | other_instr id => rfl

theorem scan_function_eq (acc : Nat × Nat) (function : nir_function) :
    scan_function acc function = (function_loads function).foldl widen acc := by
  unfold scan_function function_loads
  cases function.impl with
  | none => rfl
  | some blocks =>
    simp only
    induction blocks generalizing acc with
    | nil => rfl
    | cons block rest ih =>
      rw [List.foldl_cons, ih, List.flatMap_cons, List.foldl_append, scan_block_eq]

theorem scan_shader_eq (nir : nir_shader) :
    scan_shader nir = (push_loads nir).foldl widen (4294967295, 0) := by
  unfold scan_shader push_loads
  generalize ((4294967295, 0) : Nat × Nat) = acc
  induction nir.functions generalizing acc with
  | nil => rfl
  | cons function rest ih =>
    rw [List.foldl_cons, ih, List.flatMap_cons, List.foldl_append, scan_function_eq]

theorem foldl_widen_mono (loads : List nir_intrinsic_instr) (acc : Nat × Nat) :
    (loads.foldl widen acc).1 ≤ acc.1 ∧ acc.2 ≤ (loads.foldl widen acc).2 := by
  induction loads generalizing acc with
  | nil => simp
  | cons intrin rest ih =>
    rw [List.foldl_cons]
    have := ih (widen acc intrin)
    simp only [widen] at this ⊢
    omega

theorem foldl_widen_bounds (loads : List nir_intrinsic_instr) (acc : Nat × Nat)
    (intrin : nir_intrinsic_instr) (hmem : intrin ∈ loads) :
    (loads.foldl widen acc).1 ≤ intrin.base ∧
      (intrin.base + intrin.range) % 4294967296 ≤ (loads.foldl widen acc).2 := by
  induction loads generalizing acc with
  | nil => simp at hmem
  | cons head rest ih =>
    rw [List.foldl_cons]
    rcases List.mem_cons.mp hmem with h | h
    · subst h
      have h := foldl_widen_mono rest (widen acc intrin)
      have h1 : (widen acc intrin).1 ≤ intrin.base := Nat.min_le_right _ _
      have h2 : (intrin.base + intrin.range) % 4294967296 ≤ (widen acc intrin).2 :=
        Nat.le_max_right _ _
      omega
    · exact ih (widen acc head) h

theorem scan_shader_bounds (nir : nir_shader) (intrin : nir_intrinsic_instr)
    (hmem : intrin ∈ push_loads nir) :
    (scan_shader nir).1 ≤ intrin.base ∧
      (intrin.base + intrin.range) % 4294967296 ≤ (scan_shader nir).2 := by
  rw [scan_shader_eq]
  exact foldl_widen_bounds _ _ _ hmem

theorem scan_shader_no_loads (nir : nir_shader) (h : push_loads nir = []) :
    scan_shader nir = (4294967295, 0) := by
  rw [scan_shader_eq, h]
  rfl

theorem scan_shader_fst_le (nir : nir_shader) : (scan_shader nir).1 ≤ 4294967295 := by
  rw [scan_shader_eq]
  exact (foldl_widen_mono _ _).1

theorem has_push_intrinsic_of_load (nir : nir_shader) (hne : push_loads nir ≠ [])
    (hwrap : ∀ intrin ∈ push_loads nir, intrin.base + intrin.range < 4294967296) :
    has_push_intrinsic nir = true := by
  obtain ⟨intrin, hmem⟩ := List.exists_mem_of_ne_nil _ hne
  have hb := scan_shader_bounds nir intrin hmem
  have hw := hwrap intrin hmem
  have hmod : (intrin.base + intrin.range) % 4294967296 = intrin.base + intrin.range :=
    Nat.mod_eq_of_lt hw
  simp only [has_push_intrinsic, decide_eq_true_eq]
  omega

theorem has_push_intrinsic_no_loads (nir : nir_shader) (h : push_loads nir = []) :
    has_push_intrinsic nir = false := by
  simp [has_push_intrinsic, scan_shader_no_loads nir h]

theorem push_start_le_scan (e : externals) (nir : nir_shader) :
    push_start_of e nir ≤ (scan_shader nir).1 ∧ push_start_of e nir ≤ push_end_of e nir := by
  have h := land_not31_le (min (scan_shader nir).1 (push_end_of e nir))
  unfold push_start_of
  omega

theorem push_start_eq (e : externals) (nir : nir_shader) :
    push_start_of e nir = min (scan_shader nir).1 (push_end_of e nir) / 32 * 32 := by
  unfold push_start_of
  apply land_not31
  have := scan_shader_fst_le nir
  omega

theorem push_size_eq (e : externals) (nir : nir_shader) (h : push_end_of e nir < 4294967296) :
    push_size_of e nir = push_end_of e nir - push_start_of e nir := by
  have := (push_start_le_scan e nir).2
  unfold push_size_of
  omega

/-! ## Lemmas: the final state, field by field -/

theorem layout_nir (e : externals) (pdevice : anv_physical_device) (nir : nir_shader)
    (prog_data : brw_stage_prog_data) (map : anv_pipeline_bind_map) :
    (anv_nir_compute_push_layout e pdevice nir prog_data map).nir = nir_after e pdevice nir := by
  unfold anv_nir_compute_push_layout
  split <;> rfl

theorem layout_nr_params (e : externals) (pdevice : anv_physical_device) (nir : nir_shader)
    (prog_data : brw_stage_prog_data) (map : anv_pipeline_bind_map) :
    (anv_nir_compute_push_layout e pdevice nir prog_data map).prog_data.nr_params =
      num_uniforms_of e pdevice nir / 4 := by
  unfold anv_nir_compute_push_layout
  split <;> rfl

theorem layout_push_start (e : externals) (pdevice : anv_physical_device) (nir : nir_shader)
    (prog_data : brw_stage_prog_data) (map : anv_pipeline_bind_map) :
    (anv_nir_compute_push_layout e pdevice nir prog_data map).push_start = push_start_of e nir := by
  unfold anv_nir_compute_push_layout
  split <;> rfl

theorem layout_push_end (e : externals) (pdevice : anv_physical_device) (nir : nir_shader)
    (prog_data : brw_stage_prog_data) (map : anv_pipeline_bind_map) :
    (anv_nir_compute_push_layout e pdevice nir prog_data map).push_end = push_end_of e nir := by
  unfold anv_nir_compute_push_layout
  split <;> rfl

theorem layout_push_constant_range (e : externals) (pdevice : anv_physical_device)
    (nir : nir_shader) (prog_data : brw_stage_prog_data) (map : anv_pipeline_bind_map) :
    (anv_nir_compute_push_layout e pdevice nir prog_data map).push_constant_range =
      push_constant_range_of e nir := by
  unfold anv_nir_compute_push_layout
  split <;> rfl

theorem layout_stage_assert (e : externals) (pdevice : anv_physical_device) (nir : nir_shader)
    (prog_data : brw_stage_prog_data) (map : anv_pipeline_bind_map) :
    (anv_nir_compute_push_layout e pdevice nir prog_data map).stage_assert = stage_assert e nir := by
  unfold anv_nir_compute_push_layout
  split <;> rfl

theorem layout_packed (e : externals) (pdevice : anv_physical_device) (nir : nir_shader)
    (prog_data : brw_stage_prog_data) (map : anv_pipeline_bind_map)
    (h : packed_path pdevice nir = true) :
    (anv_nir_compute_push_layout e pdevice nir prog_data map).map.push_ranges =
        (pack_push_ranges e map
          (trim_ubo_ranges e (push_constant_range_of e nir).length
            (analysed_ubo_ranges e pdevice nir)).2
          (push_constant_range_of e nir) (fun _ => empty_push_range)).2.1 ∧
    (anv_nir_compute_push_layout e pdevice nir prog_data map).prog_data.ubo_ranges =
        (trim_ubo_ranges e (push_constant_range_of e nir).length
          (analysed_ubo_ranges e pdevice nir)).2 ∧
    (anv_nir_compute_push_layout e pdevice nir prog_data map).total_push_regs =
        (trim_ubo_ranges e (push_constant_range_of e nir).length
          (analysed_ubo_ranges e pdevice nir)).1 ∧
    (anv_nir_compute_push_layout e pdevice nir prog_data map).capacity_assert =
        decide ((trim_ubo_ranges e (push_constant_range_of e nir).length
          (analysed_ubo_ranges e pdevice nir)).1 ≤ 64) ∧
    (anv_nir_compute_push_layout e pdevice nir prog_data map).stores_in_bounds =
        (pack_push_ranges e map
          (trim_ubo_ranges e (push_constant_range_of e nir).length
            (analysed_ubo_ranges e pdevice nir)).2
          (push_constant_range_of e nir) (fun _ => empty_push_range)).2.2 := by
  simp [anv_nir_compute_push_layout, h]

theorem layout_simple (e : externals) (pdevice : anv_physical_device) (nir : nir_shader)
    (prog_data : brw_stage_prog_data) (map : anv_pipeline_bind_map)
    (h : packed_path pdevice nir = false) :
    (anv_nir_compute_push_layout e pdevice nir prog_data map).map.push_ranges =
        Function.update (fun _ => empty_push_range) 0 (push_constant_range_of e nir) ∧
    (anv_nir_compute_push_layout e pdevice nir prog_data map).prog_data.ubo_ranges =
        prog_data.ubo_ranges ∧
    (anv_nir_compute_push_layout e pdevice nir prog_data map).total_push_regs =
        (push_constant_range_of e nir).length ∧
    (anv_nir_compute_push_layout e pdevice nir prog_data map).capacity_assert = true ∧
    (anv_nir_compute_push_layout e pdevice nir prog_data map).stores_in_bounds = true := by
  simp [anv_nir_compute_push_layout, h]

/-! ## Lemmas: the capacity loop -/

theorem trim_step_spec (e : externals) (st : Nat × (Fin 4 → brw_ubo_range)) (i : Fin 4)
    (htotal : st.1 ≤ 64) (hfit : (st.2 i).length < 2 ^ e.ubo_range_bits)
    (hbits : e.ubo_range_bits ≤ 31) :
    trim_step e st i =
      (st.1 + min (st.2 i).length (64 - st.1),
       Function.update st.2 i { st.2 i with length := min (st.2 i).length (64 - st.1) }) := by
  have hpow : 2 ^ e.ubo_range_bits ≤ 2 ^ 31 := Nat.pow_le_pow_right (by decide) hbits
  have hpow2 : (2 : Nat) ^ 31 = 2147483648 := by norm_num
  unfold trim_step
  by_cases hc : (st.1 + (st.2 i).length) % 4294967296 > 64
  · have h1 : (64 + 4294967296 - st.1) % 4294967296 = 64 - st.1 := by omega
    have h2 : (64 - st.1) % 2 ^ e.ubo_range_bits = 64 - st.1 :=
      Nat.mod_eq_of_lt (by omega)
    have h3 : min (st.2 i).length (64 - st.1) = 64 - st.1 := by omega
    simp only [hc, if_true, h1, h2, h3, Function.update_same]
    congr 1
    omega
  · have h3 : min (st.2 i).length (64 - st.1) = (st.2 i).length := by omega
    simp only [hc, if_false, h3]
    rw [Function.update_eq_self]
    congr 1
    omega

theorem trim_ubo_ranges_spec (e : externals) (p : Nat) (ubo : Fin 4 → brw_ubo_range)
    (hp : p ≤ 64) (hfit : ∀ i, (ubo i).length < 2 ^ e.ubo_range_bits)
    (hbits : e.ubo_range_bits ≤ 31) :
    (trim_ubo_ranges e p ubo).1 =
        p + (clamp_lengths p
          [(ubo 0).length, (ubo 1).length, (ubo 2).length, (ubo 3).length]).sum ∧
    ∀ i : Fin 4, (trim_ubo_ranges e p ubo).2 i =
        { ubo i with
          length := (clamp_lengths p
            [(ubo 0).length, (ubo 1).length, (ubo 2).length, (ubo 3).length]).getD i.val 0 } := by
  have s0 := trim_step_spec e (p, ubo) 0 hp (hfit 0) hbits
  have s1 := trim_step_spec e (trim_step e (p, ubo) 0) 1
    (by rw [s0]; simp only; omega) (by rw [s0]; simpa using hfit 1) hbits
  have s2 := trim_step_spec e (trim_step e (trim_step e (p, ubo) 0) 1) 2
    (by rw [s1, s0]; simp; omega) (by rw [s1, s0]; simpa using hfit 2) hbits
  have s3 := trim_step_spec e (trim_step e (trim_step e (trim_step e (p, ubo) 0) 1) 2) 3
    (by rw [s2, s1, s0]; simp; omega) (by rw [s2, s1, s0]; simpa using hfit 3) hbits
  have hfold : trim_ubo_ranges e p ubo =
      trim_step e (trim_step e (trim_step e (trim_step e (p, ubo) 0) 1) 2) 3 := rfl
  rw [hfold, s3, s2, s1, s0]
  refine ⟨?_, ?_⟩
  · simp [clamp_lengths]
    omega
  · intro i
    fin_cases i <;> simp [clamp_lengths, Function.update]

theorem clamp_lengths_total (p l0 l1 l2 l3 : Nat) (hp : p ≤ 64) :
    p + (clamp_lengths p [l0, l1, l2, l3]).sum = min 64 (p + (l0 + l1 + l2 + l3)) := by
  simp [clamp_lengths]
  omega

/-- One step of the capacity loop changes nothing but lengths, and a length
it writes fits the field. -/
theorem trim_step_inv (e : externals) (st : Nat × (Fin 4 → brw_ubo_range)) (i j : Fin 4) :
    ((trim_step e st i).2 j).block = (st.2 j).block ∧
    ((trim_step e st i).2 j).start = (st.2 j).start ∧
    ((st.2 j).length < 2 ^ e.ubo_range_bits →
      ((trim_step e st i).2 j).length < 2 ^ e.ubo_range_bits) := by
  have hpos : 0 < 2 ^ e.ubo_range_bits := Nat.two_pow_pos _
  unfold trim_step
  by_cases hc : (st.1 + (st.2 i).length) % 4294967296 > 64
  · by_cases hij : j = i
    · subst hij
      simp only [hc, if_true, Function.update_same]
      exact ⟨trivial, trivial, fun _ => Nat.mod_lt _ hpos⟩
    · simp only [hc, if_true, Function.update_noteq hij]
      exact ⟨trivial, trivial, fun h => h⟩
  · simp only [hc, if_false]
    exact ⟨trivial, trivial, fun h => h⟩

theorem trim_ubo_ranges_inv (e : externals) (p : Nat) (ubo : Fin 4 → brw_ubo_range) (j : Fin 4) :
    ((trim_ubo_ranges e p ubo).2 j).block = (ubo j).block ∧
    ((trim_ubo_ranges e p ubo).2 j).start = (ubo j).start ∧
    ((ubo j).length < 2 ^ e.ubo_range_bits →
      ((trim_ubo_ranges e p ubo).2 j).length < 2 ^ e.ubo_range_bits) := by
  have hfold : trim_ubo_ranges e p ubo =
      trim_step e (trim_step e (trim_step e (trim_step e (p, ubo) 0) 1) 2) 3 := rfl
  rw [hfold]
  have a0 := trim_step_inv e (p, ubo) 0 j
  have a1 := trim_step_inv e (trim_step e (p, ubo) 0) 1 j
  have a2 := trim_step_inv e (trim_step e (trim_step e (p, ubo) 0) 1) 2 j
  have a3 := trim_step_inv e (trim_step e (trim_step e (trim_step e (p, ubo) 0) 1) 2) 3 j
  refine ⟨?_, ?_, ?_⟩
  · rw [a3.1, a2.1, a1.1, a0.1]
  · rw [a3.2.1, a2.2.1, a1.2.1, a0.2.1]
  · intro h
    exact a3.2.2 (a2.2.2 (a1.2.2 (a0.2.2 h)))

/-! ## Lemmas: the slot stores of the packed path -/

theorem store_push_range_3 (a : Fin 4 → anv_push_range) (v : anv_push_range) :
    store_push_range a 3 v = Function.update a 3 v := rfl

theorem store_push_range_2 (a : Fin 4 → anv_push_range) (v : anv_push_range) :
    store_push_range a 2 v = Function.update a 2 v := rfl

theorem store_push_range_1 (a : Fin 4 → anv_push_range) (v : anv_push_range) :
    store_push_range a 1 v = Function.update a 1 v := rfl

theorem store_push_range_0 (a : Fin 4 → anv_push_range) (v : anv_push_range) :
    store_push_range a 0 v = Function.update a 0 v := rfl

theorem store_push_range_neg (a : Fin 4 → anv_push_range) (v : anv_push_range) :
    store_push_range a (-1) v = a := rfl

/-- The stores of the packed path build the array the specification describes. -/
theorem pack_push_ranges_slot (e : externals) (map : anv_pipeline_bind_map)
    (ubo_ranges : Fin 4 → brw_ubo_range) (pcr : anv_push_range) (k : Fin 4) :
    (pack_push_ranges e map ubo_ranges pcr (fun _ => empty_push_range)).2.1 k =
      packed_slot e map ubo_ranges pcr k := by
  by_cases h3 : (ubo_ranges 3).length = 0 <;> by_cases h2 : (ubo_ranges 2).length = 0 <;>
  by_cases h1 : (ubo_ranges 1).length = 0 <;> by_cases h0 : (ubo_ranges 0).length = 0 <;>
  by_cases hp : pcr.length = 0 <;>
  fin_cases k <;>
  simp [pack_push_ranges, place_push_constant_range, place_ubo_ranges, place_step, packed_slot,
    nonempty_candidates, h3, h2, h1, h0, hp, store_push_range_3, store_push_range_2,
    store_push_range_1, store_push_range_0, store_push_range_neg, Function.update,
    Nat.pos_iff_ne_zero]

/-- Every store of the packed path is inside the array unless the
push-constant range is stored after four UBO ranges. -/
theorem pack_push_ranges_in_bounds (e : externals) (map : anv_pipeline_bind_map)
    (ubo_ranges : Fin 4 → brw_ubo_range) (pcr : anv_push_range) (a : Fin 4 → anv_push_range) :
    (pack_push_ranges e map ubo_ranges pcr a).2.2 =
      decide (pcr.length = 0 ∨ (nonempty_candidates ubo_ranges).length < 4) := by
  by_cases h3 : (ubo_ranges 3).length = 0 <;> by_cases h2 : (ubo_ranges 2).length = 0 <;>
  by_cases h1 : (ubo_ranges 1).length = 0 <;> by_cases h0 : (ubo_ranges 0).length = 0 <;>
  by_cases hp : pcr.length = 0 <;>
  simp [pack_push_ranges, place_push_constant_range, place_ubo_ranges, place_step,
    nonempty_candidates, h3, h2, h1, h0, hp, index_in_bounds, Nat.pos_iff_ne_zero]

/-- The slot lengths of the specification's packed array add up to at most
the push-constant length plus the four UBO lengths. -/
theorem packed_slot_sum_le (e : externals) (map : anv_pipeline_bind_map)
    (ubo_ranges : Fin 4 → brw_ubo_range) (pcr : anv_push_range) :
    slot_length_sum (packed_slot e map ubo_ranges pcr) ≤
      pcr.length + ((ubo_ranges 0).length + (ubo_ranges 1).length + (ubo_ranges 2).length +
        (ubo_ranges 3).length) := by
  have m0 := Nat.mod_le (ubo_ranges 0).length (2 ^ e.push_range_bits)
  have m1 := Nat.mod_le (ubo_ranges 1).length (2 ^ e.push_range_bits)
  have m2 := Nat.mod_le (ubo_ranges 2).length (2 ^ e.push_range_bits)
  have m3 := Nat.mod_le (ubo_ranges 3).length (2 ^ e.push_range_bits)
  have v0 : ((0 : Fin 4) : Nat) = 0 := rfl
  have v1 : ((1 : Fin 4) : Nat) = 1 := rfl
  have v2 : ((2 : Fin 4) : Nat) = 2 := rfl
  have v3 : ((3 : Fin 4) : Nat) = 3 := rfl
  by_cases h3 : (ubo_ranges 3).length = 0 <;> by_cases h2 : (ubo_ranges 2).length = 0 <;>
  by_cases h1 : (ubo_ranges 1).length = 0 <;> by_cases h0 : (ubo_ranges 0).length = 0 <;>
  by_cases hp : pcr.length = 0 <;>
  simp [slot_length_sum, packed_slot, nonempty_candidates, ubo_push_range, empty_push_range,
    h3, h2, h1, h0, hp, v0, v1, v2, v3] <;>
  omega

/-! ## Lemmas: the specification's packed array -/

theorem nonempty_candidates_getD (ubo_ranges : Fin 4 → brw_ubo_range) (j : Nat)
    (hj : j < (nonempty_candidates ubo_ranges).length) :
    (ubo_ranges ((nonempty_candidates ubo_ranges).getD j 0)).length ≠ 0 := by
  have hmem : (nonempty_candidates ubo_ranges).getD j 0 ∈ nonempty_candidates ubo_ranges := by
    rw [List.getD_eq_getElem _ _ hj]
    exact List.getElem_mem hj
  exact of_decide_eq_true (List.mem_filter.mp hmem).2

theorem nonempty_candidates_length_le (ubo_ranges : Fin 4 → brw_ubo_range) :
    (nonempty_candidates ubo_ranges).length ≤ 4 := by
  unfold nonempty_candidates
  exact List.length_filter_le _ _

theorem packed_slot_ordered (e : externals) (map : anv_pipeline_bind_map)
    (ubo_ranges : Fin 4 → brw_ubo_range) (pcr : anv_push_range)
    (hmod : ∀ i, (ubo_ranges i).length % 2 ^ e.push_range_bits = (ubo_ranges i).length)
    (k : Fin 3) (hocc : occupied (packed_slot e map ubo_ranges pcr k.castSucc)) :
    occupied (packed_slot e map ubo_ranges pcr k.succ) := by
  have hk : (k.castSucc : Fin 4).val = k.val := rfl
  have hk1 : (k.succ : Fin 4).val = k.val + 1 := rfl
  have hk3 := k.isLt
  have hnext : 4 ≤ k.val + 1 + (nonempty_candidates ubo_ranges).length := by
    by_contra hlt
    apply hocc
    have h1 : ¬ 4 ≤ k.val + (nonempty_candidates ubo_ranges).length := by omega
    have h2 : ¬ (pcr.length ≠ 0 ∧ k.val + 1 + (nonempty_candidates ubo_ranges).length = 4) := by
      omega
    simp only [packed_slot, hk, h1, h2, if_false]
    rfl
  have hidx : 3 - (k.val + 1) < (nonempty_candidates ubo_ranges).length := by omega
  simp only [occupied, packed_slot, hk1, hnext, if_true, ubo_push_range, hmod]
  exact nonempty_candidates_getD ubo_ranges _ hidx

theorem packed_slot_push_constant_range (e : externals) (map : anv_pipeline_bind_map)
    (ubo_ranges : Fin 4 → brw_ubo_range) (pcr : anv_push_range) (hp : pcr.length ≠ 0)
    (hm : (nonempty_candidates ubo_ranges).length < 4) :
    ∃ n : Fin 4, n.val + 1 + (nonempty_candidates ubo_ranges).length = 4 ∧
      packed_slot e map ubo_ranges pcr n = pcr ∧
      ∀ j : Fin 4, j < n → packed_slot e map ubo_ranges pcr j = empty_push_range := by
  refine ⟨⟨3 - (nonempty_candidates ubo_ranges).length, by omega⟩, by simp only; omega, ?_, ?_⟩
  · have h1 : ¬ 4 ≤ 3 - (nonempty_candidates ubo_ranges).length +
        (nonempty_candidates ubo_ranges).length := by omega
    have h2 : 3 - (nonempty_candidates ubo_ranges).length + 1 +
        (nonempty_candidates ubo_ranges).length = 4 := by omega
    simp only [packed_slot, h1, h2, hp, if_false, ne_eq, not_false_eq_true, and_self, if_true]
  · intro j hj
    have hj' : j.val < 3 - (nonempty_candidates ubo_ranges).length := hj
    have h1 : ¬ 4 ≤ j.val + (nonempty_candidates ubo_ranges).length := by omega
    have h2 : ¬ (pcr.length ≠ 0 ∧ j.val + 1 + (nonempty_candidates ubo_ranges).length = 4) := by
      omega
    simp only [packed_slot, h1, h2, if_false]

theorem layout_packed_slots (e : externals) (pdevice : anv_physical_device) (nir : nir_shader)
    (prog_data : brw_stage_prog_data) (map : anv_pipeline_bind_map)
    (h : packed_path pdevice nir = true) :
    (anv_nir_compute_push_layout e pdevice nir prog_data map).map.push_ranges =
      packed_slot e map
        (anv_nir_compute_push_layout e pdevice nir prog_data map).prog_data.ubo_ranges
        (push_constant_range_of e nir) := by
  rw [(layout_packed e pdevice nir prog_data map h).1,
    (layout_packed e pdevice nir prog_data map h).2.1]
  funext k
  exact pack_push_ranges_slot _ _ _ _ k

theorem layout_packed_in_bounds (e : externals) (pdevice : anv_physical_device)
    (nir : nir_shader) (prog_data : brw_stage_prog_data) (map : anv_pipeline_bind_map)
    (h : packed_path pdevice nir = true) :
    (anv_nir_compute_push_layout e pdevice nir prog_data map).stores_in_bounds =
      decide ((push_constant_range_of e nir).length = 0 ∨
        (nonempty_candidates
          (anv_nir_compute_push_layout e pdevice nir prog_data map).prog_data.ubo_ranges).length
            < 4) := by
  rw [(layout_packed e pdevice nir prog_data map h).2.2.2.2,
    (layout_packed e pdevice nir prog_data map h).2.1]
  exact pack_push_ranges_in_bounds _ _ _ _ _

theorem trimmed_length_mod (e : externals) (p : Nat) (ubo : Fin 4 → brw_ubo_range)
    (hbits : e.ubo_range_bits ≤ e.push_range_bits)
    (hfit : ∀ i, (ubo i).length < 2 ^ e.ubo_range_bits) (i : Fin 4) :
    ((trim_ubo_ranges e p ubo).2 i).length % 2 ^ e.push_range_bits =
      ((trim_ubo_ranges e p ubo).2 i).length := by
  apply Nat.mod_eq_of_lt
  have h1 := (trim_ubo_ranges_inv e p ubo i).2.2 (hfit i)
  have h2 : 2 ^ e.ubo_range_bits ≤ 2 ^ e.push_range_bits :=
    Nat.pow_le_pow_right (by decide) hbits
  omega

/-! ## C1: capacity -/

/-- C1 (counterexample): on the simple path (generation 7, vertex stage) one
push-constant load of bytes `[0, 4096)` leaves a push-constant range of 128
registers in slot 0, so the four slot lengths add up to more than 64; this
holds with 8-bit slot fields and with 32-bit slot fields. -/
theorem capacity_exceeded_on_simple_path :
    ¬ (slot_length_sum
        (anv_nir_compute_push_layout (sample_externals 8 8 (fun _ => 0)) (sample_device 7)
          (sample_shader gl_shader_stage.MESA_SHADER_VERTEX [push_load 0 4096])
          (sample_prog_data (fun _ => 0)) sample_map).map.push_ranges ≤ 64) ∧
    ¬ (slot_length_sum
        (anv_nir_compute_push_layout (sample_externals 8 32 (fun _ => 0)) (sample_device 7)
          (sample_shader gl_shader_stage.MESA_SHADER_VERTEX [push_load 0 4096])
          (sample_prog_data (fun _ => 0)) sample_map).map.push_ranges ≤ 64) := by
  decide

/-- C1 (amended): whenever the push-constant range is at most 64 registers
long (and, on the packed path, the length field of a UBO range is at most 31
bits wide and holds each analysed length), the lengths of the four slots of
`push_ranges` add up to at most 64, on either path. -/
theorem capacity_of_bounded_push_range (e : externals) (pdevice : anv_physical_device)
    (nir : nir_shader) (prog_data : brw_stage_prog_data) (map : anv_pipeline_bind_map)
    (hp : (push_constant_range_of e nir).length ≤ 64)
    (hfit : packed_path pdevice nir = true →
      e.ubo_range_bits ≤ 31 ∧
        ∀ i, (analysed_ubo_ranges e pdevice nir i).length < 2 ^ e.ubo_range_bits) :
    slot_length_sum (anv_nir_compute_push_layout e pdevice nir prog_data map).map.push_ranges
      ≤ 64 := by
  cases hpath : packed_path pdevice nir with
  | true =>
    obtain ⟨hbits, hlen⟩ := hfit hpath
    rw [layout_packed_slots e pdevice nir prog_data map hpath,
      (layout_packed e pdevice nir prog_data map hpath).2.1]
    have hsum := packed_slot_sum_le e map
      (trim_ubo_ranges e (push_constant_range_of e nir).length
        (analysed_ubo_ranges e pdevice nir)).2 (push_constant_range_of e nir)
    obtain ⟨_, hspec⟩ := trim_ubo_ranges_spec e (push_constant_range_of e nir).length
      (analysed_ubo_ranges e pdevice nir) hp hlen hbits
    have v3 : ((3 : Fin 4) : Nat) = 3 := rfl
    rw [hspec 0, hspec 1, hspec 2, hspec 3] at hsum
    simp [clamp_lengths, v3] at hsum
    omega
  | false =>
    rw [(layout_simple e pdevice nir prog_data map hpath).1]
    simp [slot_length_sum, Function.update, empty_push_range]
    exact hp

/-- C1 (witness): the packed path with a push-constant range of one register
and four candidates of 20 registers each. -/
theorem capacity_of_bounded_push_range_witness :
    (push_constant_range_of (sample_externals 8 8 (fun _ => 20))
        (sample_shader gl_shader_stage.MESA_SHADER_VERTEX [push_load 0 32])).length ≤ 64 ∧
    slot_length_sum
      (anv_nir_compute_push_layout (sample_externals 8 8 (fun _ => 20)) (sample_device 9)
        (sample_shader gl_shader_stage.MESA_SHADER_VERTEX [push_load 0 32])
        (sample_prog_data (fun _ => 0)) sample_map).map.push_ranges ≤ 64 :=
  ⟨by decide,
   capacity_of_bounded_push_range (sample_externals 8 8 (fun _ => 20)) (sample_device 9)
    (sample_shader gl_shader_stage.MESA_SHADER_VERTEX [push_load 0 32])
    (sample_prog_data (fun _ => 0)) sample_map (by decide) (by decide)⟩

/-! ## C2: ordering -/

/-- C2: for every slot `k < 3`, if `push_ranges[k]` is occupied then
`push_ranges[k+1]` is occupied too, the one exception being the
push-constant range alone in slot 0 with slots 1..3 empty; and when the
push-constant range is stored in the array, every slot below it is
unoccupied (it sits at the lowest occupied index). The UBO length field is
taken no wider than the slot length field and to hold each analysed length. -/
theorem occupied_slots_form_suffix (e : externals) (pdevice : anv_physical_device)
    (nir : nir_shader) (prog_data : brw_stage_prog_data) (map : anv_pipeline_bind_map)
    (hfit : packed_path pdevice nir = true →
      e.ubo_range_bits ≤ e.push_range_bits ∧
        ∀ i, (analysed_ubo_ranges e pdevice nir i).length < 2 ^ e.ubo_range_bits) :
    (∀ k : Fin 3,
      occupied ((anv_nir_compute_push_layout e pdevice nir prog_data map).map.push_ranges
        k.castSucc) →
      occupied ((anv_nir_compute_push_layout e pdevice nir prog_data map).map.push_ranges
        k.succ) ∨
      (k = 0 ∧
        (anv_nir_compute_push_layout e pdevice nir prog_data map).map.push_ranges 0 =
          (anv_nir_compute_push_layout e pdevice nir prog_data map).push_constant_range ∧
        ∀ j : Fin 4, j ≠ 0 →
          (anv_nir_compute_push_layout e pdevice nir prog_data map).map.push_ranges j =
            empty_push_range)) ∧
    ((anv_nir_compute_push_layout e pdevice nir prog_data map).push_constant_range.length ≠ 0 →
      (anv_nir_compute_push_layout e pdevice nir prog_data map).stores_in_bounds = true →
      ∃ n : Fin 4,
        (anv_nir_compute_push_layout e pdevice nir prog_data map).map.push_ranges n =
          (anv_nir_compute_push_layout e pdevice nir prog_data map).push_constant_range ∧
        ∀ j : Fin 4, j < n →
          ¬ occupied
            ((anv_nir_compute_push_layout e pdevice nir prog_data map).map.push_ranges j)) := by
  rw [layout_push_constant_range]
  cases hpath : packed_path pdevice nir with
  | true =>
    obtain ⟨hbits, hlen⟩ := hfit hpath
    have hmod := trimmed_length_mod e (push_constant_range_of e nir).length
      (analysed_ubo_ranges e pdevice nir) hbits hlen
    rw [layout_packed_in_bounds e pdevice nir prog_data map hpath,
      layout_packed_slots e pdevice nir prog_data map hpath,
      (layout_packed e pdevice nir prog_data map hpath).2.1]
    refine ⟨fun k hocc => Or.inl (packed_slot_ordered e map _ _ hmod k hocc), ?_⟩
    intro hp hin
    have hm : (nonempty_candidates (trim_ubo_ranges e (push_constant_range_of e nir).length
        (analysed_ubo_ranges e pdevice nir)).2).length < 4 := by
      simpa [hp] using hin
    obtain ⟨n, _, hn, hbelow⟩ := packed_slot_push_constant_range e map _ _ hp hm
    refine ⟨n, hn, fun j hj => ?_⟩
    rw [hbelow j hj]
    simp [occupied, empty_push_range]
  | false =>
    rw [(layout_simple e pdevice nir prog_data map hpath).1]
    refine ⟨fun k hocc => ?_, fun _ _ => ⟨0, by simp, fun j hj => absurd hj (by simp)⟩⟩
    right
    have hk : k = 0 := by
      by_contra hne
      apply hocc
      have : (k.castSucc : Fin 4) ≠ 0 := by
        intro h
        apply hne
        exact Fin.castSucc_eq_zero_iff.mp h
      simp [Function.update, this, empty_push_range]
    refine ⟨hk, by simp, fun j hj => by simp [Function.update, hj]⟩

/-- C2 (witness): the packed path with a push-constant range of one register
and two non-empty candidates: slot 1 (the push-constant range) is occupied,
and so is slot 2. -/
theorem occupied_slots_form_suffix_witness :
    occupied ((anv_nir_compute_push_layout (sample_externals 8 8 ![0, 5, 0, 7])
        (sample_device 9) (sample_shader gl_shader_stage.MESA_SHADER_VERTEX [push_load 0 32])
        (sample_prog_data (fun _ => 0)) sample_map).map.push_ranges (1 : Fin 3).castSucc) ∧
    (occupied ((anv_nir_compute_push_layout (sample_externals 8 8 ![0, 5, 0, 7])
        (sample_device 9) (sample_shader gl_shader_stage.MESA_SHADER_VERTEX [push_load 0 32])
        (sample_prog_data (fun _ => 0)) sample_map).map.push_ranges (1 : Fin 3).succ) ∨
      ((1 : Fin 3) = 0 ∧
        (anv_nir_compute_push_layout (sample_externals 8 8 ![0, 5, 0, 7])
          (sample_device 9) (sample_shader gl_shader_stage.MESA_SHADER_VERTEX [push_load 0 32])
          (sample_prog_data (fun _ => 0)) sample_map).map.push_ranges 0 =
          (anv_nir_compute_push_layout (sample_externals 8 8 ![0, 5, 0, 7])
            (sample_device 9) (sample_shader gl_shader_stage.MESA_SHADER_VERTEX [push_load 0 32])
            (sample_prog_data (fun _ => 0)) sample_map).push_constant_range ∧
        ∀ j : Fin 4, j ≠ 0 →
          (anv_nir_compute_push_layout (sample_externals 8 8 ![0, 5, 0, 7])
            (sample_device 9) (sample_shader gl_shader_stage.MESA_SHADER_VERTEX [push_load 0 32])
            (sample_prog_data (fun _ => 0)) sample_map).map.push_ranges j =
            empty_push_range)) :=
  ⟨by decide,
   (occupied_slots_form_suffix (sample_externals 8 8 ![0, 5, 0, 7]) (sample_device 9)
    (sample_shader gl_shader_stage.MESA_SHADER_VERTEX [push_load 0 32])
    (sample_prog_data (fun _ => 0)) sample_map (by decide)).1 1 (by decide)⟩

theorem packed_path_not_compute (pdevice : anv_physical_device) (nir : nir_shader)
    (h : packed_path pdevice nir = true) : is_compute nir = false := by
  unfold packed_path at h
  cases hc : is_compute nir <;> simp_all

/-- With no push-constant load in a stage other than compute, the interval
is `[0, 0)`, nothing is sized and the push-constant range is empty. -/
theorem no_loads_non_compute (e : externals) (pdevice : anv_physical_device) (nir : nir_shader)
    (hloads : push_loads nir = []) (hstage : is_compute nir = false) :
    push_end_of e nir = 0 ∧ push_start_of e nir = 0 ∧ push_size_of e nir = 0 ∧
      num_uniforms_of e pdevice nir = 0 ∧
      push_constant_range_of e nir =
        { set := e.ANV_DESCRIPTOR_SET_PUSH_CONSTANTS, index := 0, dynamic_offset_index := 0,
          start := 0, length := 0 } := by
  have hend : push_end_of e nir = 0 := by
    simp [push_end_of, hstage, scan_shader_no_loads nir hloads]
  have hstart : push_start_of e nir = 0 := by
    simp [push_start_of, hend]
  have hsize : push_size_of e nir = 0 := by
    simp [push_size_of, hend, hstart]
  refine ⟨hend, hstart, hsize, ?_, ?_⟩
  · unfold num_uniforms_of align_of ALIGN
    rw [hsize]
    split <;> rfl
  · unfold push_constant_range_of DIV_ROUND_UP
    rw [hsize, hstart]
    simp

theorem packed_slot_ubo (e : externals) (map : anv_pipeline_bind_map)
    (ubo_ranges : Fin 4 → brw_ubo_range) (pcr : anv_push_range)
    (hlen : ∀ i, (ubo_ranges i).length % 2 ^ e.push_range_bits = (ubo_ranges i).length)
    (hstart : ∀ i, (ubo_ranges i).start % 2 ^ e.push_range_bits = (ubo_ranges i).start)
    (j : Nat) (hj : j < (nonempty_candidates ubo_ranges).length) :
    packed_slot e map ubo_ranges pcr ⟨3 - j, by omega⟩ =
      { set := (map.surface_to_descriptor
          (ubo_ranges ((nonempty_candidates ubo_ranges).get ⟨j, hj⟩)).block).set
        index := (map.surface_to_descriptor
          (ubo_ranges ((nonempty_candidates ubo_ranges).get ⟨j, hj⟩)).block).index
        dynamic_offset_index := (map.surface_to_descriptor
          (ubo_ranges ((nonempty_candidates ubo_ranges).get ⟨j, hj⟩)).block).dynamic_offset_index
        start := (ubo_ranges ((nonempty_candidates ubo_ranges).get ⟨j, hj⟩)).start
        length := (ubo_ranges ((nonempty_candidates ubo_ranges).get ⟨j, hj⟩)).length } := by
  have hm := nonempty_candidates_length_le ubo_ranges
  have h1 : 4 ≤ 3 - j + (nonempty_candidates ubo_ranges).length := by omega
  have h2 : 3 - (3 - j) = j := by omega
  simp only [packed_slot, h1, if_true, h2, ubo_push_range, hlen, hstart,
    List.getD_eq_getElem _ _ hj, List.get_eq_getElem]

theorem packed_slot_below (e : externals) (map : anv_pipeline_bind_map)
    (ubo_ranges : Fin 4 → brw_ubo_range) (pcr : anv_push_range) (hp : pcr.length = 0)
    (k : Fin 4) (hk : k.val + (nonempty_candidates ubo_ranges).length < 4) :
    packed_slot e map ubo_ranges pcr k = empty_push_range := by
  have h1 : ¬ 4 ≤ k.val + (nonempty_candidates ubo_ranges).length := by omega
  simp [packed_slot, h1, hp]

/-! ## C3: UBO placement on the packed path -/

/-- C3: on the packed path, the candidates that are non-empty after the
capacity trim occupy slots 3, 2, ... with no index skipped, the
highest-indexed one in slot 3; slot `3 - j` carries the start and the trimmed
length of the `j`-th of them and the set, index and dynamic offset index of
`surface_to_descriptor[block]`; the trim leaves block and start as analysed;
every slot below them is empty or holds the push-constant range, and with
no push-constant load every other slot is empty. The UBO length
field is taken no wider than the slot length field, and the analysed lengths
and starts to fit their fields. -/
theorem ubo_ranges_fill_from_slot_three (e : externals) (pdevice : anv_physical_device)
    (nir : nir_shader) (prog_data : brw_stage_prog_data) (map : anv_pipeline_bind_map)
    (hpath : packed_path pdevice nir = true)
    (hbits : e.ubo_range_bits ≤ e.push_range_bits)
    (hfit : ∀ i, (analysed_ubo_ranges e pdevice nir i).length < 2 ^ e.ubo_range_bits ∧
      (analysed_ubo_ranges e pdevice nir i).start < 2 ^ e.push_range_bits) :
    (∀ (j : Nat) (hj : j < (nonempty_candidates
        (anv_nir_compute_push_layout e pdevice nir prog_data map).prog_data.ubo_ranges).length),
      (anv_nir_compute_push_layout e pdevice nir prog_data map).map.push_ranges
          ⟨3 - j, by omega⟩ =
        { set := (map.surface_to_descriptor
            ((anv_nir_compute_push_layout e pdevice nir prog_data map).prog_data.ubo_ranges
              ((nonempty_candidates (anv_nir_compute_push_layout e pdevice nir prog_data
                map).prog_data.ubo_ranges).get ⟨j, hj⟩)).block).set
          index := (map.surface_to_descriptor
            ((anv_nir_compute_push_layout e pdevice nir prog_data map).prog_data.ubo_ranges
              ((nonempty_candidates (anv_nir_compute_push_layout e pdevice nir prog_data
                map).prog_data.ubo_ranges).get ⟨j, hj⟩)).block).index
          dynamic_offset_index := (map.surface_to_descriptor
            ((anv_nir_compute_push_layout e pdevice nir prog_data map).prog_data.ubo_ranges
              ((nonempty_candidates (anv_nir_compute_push_layout e pdevice nir prog_data
                map).prog_data.ubo_ranges).get ⟨j, hj⟩)).block).dynamic_offset_index
          start := ((anv_nir_compute_push_layout e pdevice nir prog_data map).prog_data.ubo_ranges
              ((nonempty_candidates (anv_nir_compute_push_layout e pdevice nir prog_data
                map).prog_data.ubo_ranges).get ⟨j, hj⟩)).start
          length := ((anv_nir_compute_push_layout e pdevice nir prog_data map).prog_data.ubo_ranges
              ((nonempty_candidates (anv_nir_compute_push_layout e pdevice nir prog_data
                map).prog_data.ubo_ranges).get ⟨j, hj⟩)).length }) ∧
    (∀ i : Fin 4,
      ((anv_nir_compute_push_layout e pdevice nir prog_data map).prog_data.ubo_ranges i).block =
          (analysed_ubo_ranges e pdevice nir i).block ∧
      ((anv_nir_compute_push_layout e pdevice nir prog_data map).prog_data.ubo_ranges i).start =
          (analysed_ubo_ranges e pdevice nir i).start) ∧
    (anv_nir_compute_push_layout e pdevice nir prog_data map).map.surface_to_descriptor =
      map.surface_to_descriptor ∧
    (∀ k : Fin 4,
      k.val + (nonempty_candidates
        (anv_nir_compute_push_layout e pdevice nir prog_data map).prog_data.ubo_ranges).length
          < 4 →
      (anv_nir_compute_push_layout e pdevice nir prog_data map).map.push_ranges k =
          empty_push_range ∨
      (anv_nir_compute_push_layout e pdevice nir prog_data map).map.push_ranges k =
          (anv_nir_compute_push_layout e pdevice nir prog_data map).push_constant_range) ∧
    (push_loads nir = [] →
      ∀ k : Fin 4,
        k.val + (nonempty_candidates
          (anv_nir_compute_push_layout e pdevice nir prog_data map).prog_data.ubo_ranges).length
            < 4 →
        (anv_nir_compute_push_layout e pdevice nir prog_data map).map.push_ranges k =
          empty_push_range) := by
  have hubo := (layout_packed e pdevice nir prog_data map hpath).2.1
  have hinv := trim_ubo_ranges_inv e (push_constant_range_of e nir).length
    (analysed_ubo_ranges e pdevice nir)
  have hlen : ∀ i, ((anv_nir_compute_push_layout e pdevice nir prog_data
      map).prog_data.ubo_ranges i).length % 2 ^ e.push_range_bits =
      ((anv_nir_compute_push_layout e pdevice nir prog_data map).prog_data.ubo_ranges i).length := by
    rw [hubo]
    exact trimmed_length_mod e _ _ hbits (fun i => (hfit i).1)
  have hstart : ∀ i, ((anv_nir_compute_push_layout e pdevice nir prog_data
      map).prog_data.ubo_ranges i).start % 2 ^ e.push_range_bits =
      ((anv_nir_compute_push_layout e pdevice nir prog_data map).prog_data.ubo_ranges i).start := by
    rw [hubo]
    intro i
    rw [(hinv i).2.1]
    exact Nat.mod_eq_of_lt (hfit i).2
  rw [layout_packed_slots e pdevice nir prog_data map hpath, layout_push_constant_range]
  refine ⟨fun j hj => packed_slot_ubo e map _ _ hlen hstart j hj, ?_, ?_, ?_, ?_⟩
  · intro i
    rw [hubo]
    exact ⟨(hinv i).1, (hinv i).2.1⟩
  · simp [anv_nir_compute_push_layout, hpath]
  · intro k hk
    have h1 : ¬ 4 ≤ k.val + (nonempty_candidates
        (anv_nir_compute_push_layout e pdevice nir prog_data map).prog_data.ubo_ranges).length := by
      omega
    simp only [packed_slot, h1, if_false]
    split
    · exact Or.inr rfl
    · exact Or.inl rfl
  · intro hloads k hk
    have hp := (no_loads_non_compute e pdevice nir hloads
      (packed_path_not_compute pdevice nir hpath)).2.2.2.2
    exact packed_slot_below e map _ _ (by rw [hp]) k hk

/-- C3 (witness, Scenario A): no push-constant load and one candidate of
length 10 on the packed path: slot 3 holds that candidate and slots 0..2 are
empty. -/
theorem ubo_ranges_fill_from_slot_three_witness :
    (anv_nir_compute_push_layout (sample_externals 8 8 ![0, 10, 0, 0]) (sample_device 9)
        (sample_shader gl_shader_stage.MESA_SHADER_VERTEX []) (sample_prog_data (fun _ => 0))
        sample_map).map.push_ranges 3 =
      { set := 1, index := 11, dynamic_offset_index := 21, start := 1, length := 10 } ∧
    ∀ k : Fin 4, k.val + 1 < 4 →
      (anv_nir_compute_push_layout (sample_externals 8 8 ![0, 10, 0, 0]) (sample_device 9)
        (sample_shader gl_shader_stage.MESA_SHADER_VERTEX []) (sample_prog_data (fun _ => 0))
        sample_map).map.push_ranges k = empty_push_range :=
  ⟨((ubo_ranges_fill_from_slot_three (sample_externals 8 8 ![0, 10, 0, 0]) (sample_device 9)
      (sample_shader gl_shader_stage.MESA_SHADER_VERTEX []) (sample_prog_data (fun _ => 0))
      sample_map (by decide) (by decide) (by decide)).1 0 (by decide)).trans (by decide),
   (ubo_ranges_fill_from_slot_three (sample_externals 8 8 ![0, 10, 0, 0]) (sample_device 9)
      (sample_shader gl_shader_stage.MESA_SHADER_VERTEX []) (sample_prog_data (fun _ => 0))
      sample_map (by decide) (by decide) (by decide)).2.2.2.2 (by decide)⟩

/-! ## Lemmas: the rewriter -/

theorem mem_push_loads (nir : nir_shader) (function : nir_function) (blocks : List nir_block)
    (block : nir_block) (intrin : nir_intrinsic_instr)
    (hf : function ∈ nir.functions) (himpl : function.impl = some blocks)
    (hb : block ∈ blocks) (hi : nir_instr.intrinsic intrin ∈ block.instrs)
    (hop : intrin.intrinsic = nir_intrinsic_op.load_push_constant) :
    intrin ∈ push_loads nir := by
  unfold push_loads
  refine List.mem_flatMap.mpr ⟨function, hf, ?_⟩
  unfold function_loads
  rw [himpl]
  refine List.mem_flatMap.mpr ⟨block, hb, ?_⟩
  unfold block_loads
  refine List.mem_flatMap.mpr ⟨nir_instr.intrinsic intrin, hi, ?_⟩
  simp [instr_loads, hop]

theorem rewrite_instr_eq_relocate (push_start : Nat) (instr : nir_instr)
    (h : ∀ intrin, instr = nir_instr.intrinsic intrin →
      intrin.intrinsic = nir_intrinsic_op.load_push_constant →
      push_start ≤ intrin.base ∧ intrin.base < 4294967296) :
    rewrite_instr push_start instr = relocate_instr push_start instr := by
  cases instr with
  | other_instr id => rfl
  | intrinsic intrin =>
    by_cases hop : intrin.intrinsic = nir_intrinsic_op.load_push_constant
    · obtain ⟨h1, h2⟩ := h intrin rfl hop
      have hsub : (intrin.base + 4294967296 - push_start) % 4294967296 =
          intrin.base - push_start := by omega
      simp [rewrite_instr, relocate_instr, hop, hsub]
    · simp [rewrite_instr, relocate_instr, hop]

theorem rewrite_function_eq_relocate (push_start : Nat) (nir : nir_shader)
    (h : ∀ intrin ∈ push_loads nir, push_start ≤ intrin.base ∧ intrin.base < 4294967296)
    (function : nir_function) (hf : function ∈ nir.functions) :
    rewrite_function push_start function = relocate_function push_start function := by
  cases himpl : function.impl with
  | none =>
    cases function with
    | mk impl =>
      simp only at himpl
      subst himpl
      rfl
  | some blocks =>
    simp only [rewrite_function, relocate_function, himpl, Option.map_some']
    congr 2
    apply List.map_congr_left
    intro block hb
    simp only [rewrite_block]
    congr 1
    apply List.map_congr_left
    intro instr hi
    apply rewrite_instr_eq_relocate
    intro intrin hinstr hop
    subst hinstr
    exact h intrin (mem_push_loads nir function blocks block intrin hf himpl hb hi hop)

theorem instr_loads_relocate (push_start : Nat) (instr : nir_instr) :
    instr_loads (relocate_instr push_start instr) = [] := by
  cases instr with
  | other_instr id => rfl
  | intrinsic intrin =>
    by_cases hop : intrin.intrinsic = nir_intrinsic_op.load_push_constant <;>
      simp [relocate_instr, instr_loads, hop]

theorem function_loads_relocate (push_start : Nat) (function : nir_function) :
    function_loads (relocate_function push_start function) = [] := by
  cases himpl : function.impl with
  | none => simp [function_loads, relocate_function, himpl]
  | some blocks =>
    simp only [function_loads, relocate_function, himpl, Option.map_some']
    rw [List.flatMap_eq_nil_iff]
    intro block hb
    obtain ⟨block0, _, rfl⟩ := List.mem_map.mp hb
    simp only [block_loads]
    rw [List.flatMap_eq_nil_iff]
    intro instr hi
    obtain ⟨instr0, _, rfl⟩ := List.mem_map.mp hi
    exact instr_loads_relocate push_start instr0

theorem push_loads_relocate (push_start : Nat) (stage : gl_shader_stage)
    (functions : List nir_function) (num_uniforms : Nat) :
    push_loads { stage := stage, functions := functions.map (relocate_function push_start),
                 num_uniforms := num_uniforms } = [] := by
  simp only [push_loads]
  rw [List.flatMap_eq_nil_iff]
  intro function hf
  obtain ⟨function0, _, rfl⟩ := List.mem_map.mp hf
  exact function_loads_relocate push_start function0

/-! ## C5: rewrite completeness -/

/-- C5: for a module with at least one push-constant load whose
`base + range` does not wrap 32 bits, `push_start` is at most the base of
every load (the subtraction never underflows), the functions left are the
original ones with every `load_push_constant` turned into a `load_uniform` at
`base - push_start` and every other instruction unchanged, and no
`load_push_constant` remains. -/
theorem rewrite_complete (e : externals) (pdevice : anv_physical_device) (nir : nir_shader)
    (prog_data : brw_stage_prog_data) (map : anv_pipeline_bind_map)
    (hne : push_loads nir ≠ [])
    (hwrap : ∀ intrin ∈ push_loads nir, intrin.base + intrin.range < 4294967296) :
    (∀ intrin ∈ push_loads nir,
      (anv_nir_compute_push_layout e pdevice nir prog_data map).push_start ≤ intrin.base) ∧
    (anv_nir_compute_push_layout e pdevice nir prog_data map).nir.functions =
      nir.functions.map
        (relocate_function (anv_nir_compute_push_layout e pdevice nir prog_data map).push_start) ∧
    push_loads (anv_nir_compute_push_layout e pdevice nir prog_data map).nir = [] ∧
    (anv_nir_compute_push_layout e pdevice nir prog_data map).nir.stage = nir.stage := by
  have hle : ∀ intrin ∈ push_loads nir, push_start_of e nir ≤ intrin.base := by
    intro intrin hmem
    have h1 := (push_start_le_scan e nir).1
    have h2 := (scan_shader_bounds nir intrin hmem).1
    omega
  have hfun : (nir_after e pdevice nir).functions =
      nir.functions.map (relocate_function (push_start_of e nir)) := by
    simp only [nir_after, has_push_intrinsic_of_load nir hne hwrap, if_true, rewrite_shader]
    apply List.map_congr_left
    intro function hf
    apply rewrite_function_eq_relocate (push_start_of e nir) nir _ function hf
    intro intrin hmem
    have := hwrap intrin hmem
    exact ⟨hle intrin hmem, by omega⟩
  rw [layout_push_start, layout_nir]
  refine ⟨hle, hfun, ?_, ?_⟩
  · have hrec : nir_after e pdevice nir =
        { stage := (nir_after e pdevice nir).stage
          functions := nir.functions.map (relocate_function (push_start_of e nir))
          num_uniforms := (nir_after e pdevice nir).num_uniforms } := by
      rw [← hfun]
    rw [hrec]
    exact push_loads_relocate _ _ _ _
  · simp only [nir_after, rewrite_shader]
    split <;> rfl

/-- C5 (witness): a fragment shader with loads at bytes `[68, 72)` and
`[100, 116)` around other instructions; `push_start` is 64. -/
theorem rewrite_complete_witness :
    (anv_nir_compute_push_layout (sample_externals 8 8 (fun _ => 0)) (sample_device 9)
      (sample_shader gl_shader_stage.MESA_SHADER_FRAGMENT
        [nir_instr.other_instr 1, push_load 100 16, push_load 68 4])
      (sample_prog_data (fun _ => 0)) sample_map).nir.functions =
    [{ impl := none },
     { impl := some [{ instrs :=
        [nir_instr.other_instr 1,
         nir_instr.intrinsic
          { intrinsic := nir_intrinsic_op.load_uniform, base := 36, range := 16 },
         nir_instr.intrinsic
          { intrinsic := nir_intrinsic_op.load_uniform, base := 4, range := 4 }] }] }] :=
  ((rewrite_complete (sample_externals 8 8 (fun _ => 0)) (sample_device 9)
      (sample_shader gl_shader_stage.MESA_SHADER_FRAGMENT
        [nir_instr.other_instr 1, push_load 100 16, push_load 68 4])
      (sample_prog_data (fun _ => 0)) sample_map (by decide) (by decide)).2.1).trans (by decide)

/-! ## Lemmas: the validator -/

/-- The register count the validator derives from `nr_params` is the length
the packer computes, when rounding up does not wrap 32 bits. -/
theorem params_registers (d a : Nat) (ha : a = 4 ∨ a = 16) (hd : d + 31 < 4294967296) :
    DIV_ROUND_UP (ALIGN d a % 4294967296 / 4) 8 = DIV_ROUND_UP d 32 := by
  unfold DIV_ROUND_UP ALIGN
  rcases ha with rfl | rfl <;> omega

theorem packed_slot_fold (e : externals) (map : anv_pipeline_bind_map)
    (ubo_ranges : Fin 4 → brw_ubo_range) (pcr : anv_push_range)
    (hmod : ∀ i, (ubo_ranges i).length % 2 ^ e.push_range_bits = (ubo_ranges i).length)
    (hin : pcr.length = 0 ∨ (nonempty_candidates ubo_ranges).length < 4) :
    ([0, 1, 2, 3] : List (Fin 4)).foldl
        (fun acc i => (acc + (packed_slot e map ubo_ranges pcr i).length) % 4294967296) 0 =
      ([0, 1, 2, 3] : List (Fin 4)).foldl
        (fun acc i => (acc + (ubo_ranges i).length) % 4294967296) (pcr.length % 4294967296) := by
  have v0 : ((0 : Fin 4) : Nat) = 0 := rfl
  have v1 : ((1 : Fin 4) : Nat) = 1 := rfl
  have v2 : ((2 : Fin 4) : Nat) = 2 := rfl
  have v3 : ((3 : Fin 4) : Nat) = 3 := rfl
  by_cases h3 : (ubo_ranges 3).length = 0 <;> by_cases h2 : (ubo_ranges 2).length = 0 <;>
  by_cases h1 : (ubo_ranges 1).length = 0 <;> by_cases h0 : (ubo_ranges 0).length = 0 <;>
  by_cases hp : pcr.length = 0 <;>
  simp [packed_slot, nonempty_candidates, ubo_push_range, empty_push_range,
    h3, h2, h1, h0, hp, v0, v1, v2, v3, hmod] at hin ⊢

/-! ## C6: allocator and validator -/

/-- C6 (counterexample): on the simple path (generation 7, vertex stage, no
push-constant load) `prog_data->ubo_ranges` is left as it was on entry; with
a length of 5 already in `ubo_ranges[0]` the validator compares 5 with 0
and its assertion does not hold. -/
theorem validator_rejects_stale_ubo_ranges :
    anv_nir_validate_push_layout
      (anv_nir_compute_push_layout (sample_externals 8 8 (fun _ => 0)) (sample_device 7)
        (sample_shader gl_shader_stage.MESA_SHADER_VERTEX [])
        (sample_prog_data ![5, 0, 0, 0]) sample_map).prog_data
      (anv_nir_compute_push_layout (sample_externals 8 8 (fun _ => 0)) (sample_device 7)
        (sample_shader gl_shader_stage.MESA_SHADER_VERTEX [])
        (sample_prog_data ![5, 0, 0, 0]) sample_map).map = false := by
  decide

/-- C6 (amended): the state `anv_nir_compute_push_layout` leaves passes
`anv_nir_validate_push_layout` whenever rounding `push_end - push_start` up
to registers does not wrap 32 bits and the result fits the slot length
field, and: on the simple path the four `ubo_ranges` lengths are zero on
entry; on the packed path the UBO length field is no wider than the slot
length field, holds each analysed length, and every slot store is inside
`push_ranges`. -/
theorem validator_accepts_layout (e : externals) (pdevice : anv_physical_device)
    (nir : nir_shader) (prog_data : brw_stage_prog_data) (map : anv_pipeline_bind_map)
    (hsize : push_size_of e nir + 31 < 4294967296)
    (hrange : DIV_ROUND_UP (push_size_of e nir) 32 < 2 ^ e.push_range_bits)
    (hsimple : packed_path pdevice nir = false → ∀ i, (prog_data.ubo_ranges i).length = 0)
    (hpacked : packed_path pdevice nir = true →
      e.ubo_range_bits ≤ e.push_range_bits ∧
      (∀ i, (analysed_ubo_ranges e pdevice nir i).length < 2 ^ e.ubo_range_bits) ∧
      (anv_nir_compute_push_layout e pdevice nir prog_data map).stores_in_bounds = true) :
    anv_nir_validate_push_layout
      (anv_nir_compute_push_layout e pdevice nir prog_data map).prog_data
      (anv_nir_compute_push_layout e pdevice nir prog_data map).map = true := by
  have halign : align_of pdevice nir = 4 ∨ align_of pdevice nir = 16 := by
    unfold align_of
    split <;> simp
  have hregs : DIV_ROUND_UP
      (anv_nir_compute_push_layout e pdevice nir prog_data map).prog_data.nr_params 8 =
      (push_constant_range_of e nir).length := by
    rw [layout_nr_params]
    unfold num_uniforms_of
    rw [params_registers _ _ halign hsize]
    simp only [push_constant_range_of]
    exact (Nat.mod_eq_of_lt hrange).symm
  have hlt : (push_constant_range_of e nir).length < 4294967296 := by
    have : (push_constant_range_of e nir).length = DIV_ROUND_UP (push_size_of e nir) 32 := by
      simp only [push_constant_range_of]
      exact Nat.mod_eq_of_lt hrange
    rw [this]
    unfold DIV_ROUND_UP
    omega
  simp only [anv_nir_validate_push_layout, decide_eq_true_eq, prog_data_push_size,
    bind_map_push_size, hregs]
  cases hpath : packed_path pdevice nir with
  | false =>
    have hz := hsimple hpath
    rw [(layout_simple e pdevice nir prog_data map hpath).1,
      (layout_simple e pdevice nir prog_data map hpath).2.1]
    simp [Function.update, empty_push_range, hz]
  | true =>
    obtain ⟨hbits, hfit, hin⟩ := hpacked hpath
    rw [layout_packed_in_bounds e pdevice nir prog_data map hpath] at hin
    rw [layout_packed_slots e pdevice nir prog_data map hpath]
    rw [(layout_packed e pdevice nir prog_data map hpath).2.1] at hin ⊢
    rw [packed_slot_fold e map _ _ (trimmed_length_mod e _ _ hbits hfit) (by simpa using hin),
      Nat.mod_eq_of_lt hlt]

/-- C6 (witness): the packed path with a push-constant range of one register
and candidates of 30, 0, 40 and 7 registers. -/
theorem validator_accepts_layout_witness :
    anv_nir_validate_push_layout
      (anv_nir_compute_push_layout (sample_externals 8 8 ![30, 0, 40, 7]) (sample_device 9)
        (sample_shader gl_shader_stage.MESA_SHADER_VERTEX [push_load 0 32])
        (sample_prog_data (fun _ => 0)) sample_map).prog_data
      (anv_nir_compute_push_layout (sample_externals 8 8 ![30, 0, 40, 7]) (sample_device 9)
        (sample_shader gl_shader_stage.MESA_SHADER_VERTEX [push_load 0 32])
        (sample_prog_data (fun _ => 0)) sample_map).map = true :=
  validator_accepts_layout (sample_externals 8 8 ![30, 0, 40, 7]) (sample_device 9)
    (sample_shader gl_shader_stage.MESA_SHADER_VERTEX [push_load 0 32])
    (sample_prog_data (fun _ => 0)) sample_map (by decide) (by decide) (by decide) (by decide)

/-! ## C7: capacity trim -/

/-- C7: on the packed path with a push-constant range of `p <= 64`
registers (the UBO length field at most 31 bits wide and holding each analysed
length), the trimmed length of each candidate, taken in index order with a
running total that starts at `p`, is the minimum of its analysed length and
what the running total leaves of 64; no length grows; every candidate after
one that was clamped is 0; the final total is `min 64 (p + sum)` and the
assertion `total_push_regs <= 64` holds. -/
theorem capacity_trim (e : externals) (pdevice : anv_physical_device)
    (nir : nir_shader) (prog_data : brw_stage_prog_data) (map : anv_pipeline_bind_map)
    (hpath : packed_path pdevice nir = true)
    (hp : (push_constant_range_of e nir).length ≤ 64)
    (hbits : e.ubo_range_bits ≤ 31)
    (hfit : ∀ i, (analysed_ubo_ranges e pdevice nir i).length < 2 ^ e.ubo_range_bits) :
    (∀ i : Fin 4,
      ((anv_nir_compute_push_layout e pdevice nir prog_data map).prog_data.ubo_ranges i).length =
        (clamp_lengths (push_constant_range_of e nir).length
          [(analysed_ubo_ranges e pdevice nir 0).length,
           (analysed_ubo_ranges e pdevice nir 1).length,
           (analysed_ubo_ranges e pdevice nir 2).length,
           (analysed_ubo_ranges e pdevice nir 3).length]).getD i.val 0) ∧
    (∀ i : Fin 4,
      ((anv_nir_compute_push_layout e pdevice nir prog_data map).prog_data.ubo_ranges i).length ≤
        (analysed_ubo_ranges e pdevice nir i).length) ∧
    (∀ i j : Fin 4, i < j →
      ((anv_nir_compute_push_layout e pdevice nir prog_data map).prog_data.ubo_ranges i).length <
        (analysed_ubo_ranges e pdevice nir i).length →
      ((anv_nir_compute_push_layout e pdevice nir prog_data map).prog_data.ubo_ranges j).length
        = 0) ∧
    (anv_nir_compute_push_layout e pdevice nir prog_data map).total_push_regs =
      min 64 ((push_constant_range_of e nir).length +
        ((analysed_ubo_ranges e pdevice nir 0).length +
         (analysed_ubo_ranges e pdevice nir 1).length +
         (analysed_ubo_ranges e pdevice nir 2).length +
         (analysed_ubo_ranges e pdevice nir 3).length)) ∧
    (anv_nir_compute_push_layout e pdevice nir prog_data map).capacity_assert = true := by
  obtain ⟨hubo, htotal, hassert⟩ :=
    (layout_packed e pdevice nir prog_data map hpath).2
  obtain ⟨hsum, hspec⟩ := trim_ubo_ranges_spec e (push_constant_range_of e nir).length
    (analysed_ubo_ranges e pdevice nir) hp hfit hbits
  have htot := clamp_lengths_total (push_constant_range_of e nir).length
    (analysed_ubo_ranges e pdevice nir 0).length (analysed_ubo_ranges e pdevice nir 1).length
    (analysed_ubo_ranges e pdevice nir 2).length (analysed_ubo_ranges e pdevice nir 3).length hp
  have v3 : ((3 : Fin 4) : Nat) = 3 := rfl
  rw [hubo, htotal, hassert.1, hsum, htot]
  refine ⟨fun i => by rw [hspec i], ?_, ?_, rfl, ?_⟩
  · intro i
    rw [hspec i]
    fin_cases i <;> simp [clamp_lengths]
  · intro i j hij
    rw [hspec i, hspec j]
    fin_cases i <;> fin_cases j <;> simp [clamp_lengths] at hij ⊢ <;> omega
  · simp

/-- C7 (witness, Scenario C): a push-constant range of one register and four
candidates of 20 registers: the trimmed lengths are 20, 20, 20, 3 and the
total is exactly 64. -/
theorem capacity_trim_witness :
    (∀ i : Fin 4,
      ((anv_nir_compute_push_layout (sample_externals 8 8 (fun _ => 20)) (sample_device 9)
        (sample_shader gl_shader_stage.MESA_SHADER_VERTEX [push_load 0 32])
        (sample_prog_data (fun _ => 0)) sample_map).prog_data.ubo_ranges i).length =
        ![20, 20, 20, 3] i) ∧
    (anv_nir_compute_push_layout (sample_externals 8 8 (fun _ => 20)) (sample_device 9)
        (sample_shader gl_shader_stage.MESA_SHADER_VERTEX [push_load 0 32])
        (sample_prog_data (fun _ => 0)) sample_map).total_push_regs = 64 ∧
    (anv_nir_compute_push_layout (sample_externals 8 8 (fun _ => 20)) (sample_device 9)
        (sample_shader gl_shader_stage.MESA_SHADER_VERTEX [push_load 0 32])
        (sample_prog_data (fun _ => 0)) sample_map).capacity_assert = true :=
  ⟨fun i => ((capacity_trim (sample_externals 8 8 (fun _ => 20)) (sample_device 9)
      (sample_shader gl_shader_stage.MESA_SHADER_VERTEX [push_load 0 32])
      (sample_prog_data (fun _ => 0)) sample_map (by decide) (by decide) (by decide)
      (by decide)).1 i).trans (by revert i; decide),
   ((capacity_trim (sample_externals 8 8 (fun _ => 20)) (sample_device 9)
      (sample_shader gl_shader_stage.MESA_SHADER_VERTEX [push_load 0 32])
      (sample_prog_data (fun _ => 0)) sample_map (by decide) (by decide) (by decide)
      (by decide)).2.2.2.1).trans (by decide),
   (capacity_trim (sample_externals 8 8 (fun _ => 20)) (sample_device 9)
      (sample_shader gl_shader_stage.MESA_SHADER_VERTEX [push_load 0 32])
      (sample_prog_data (fun _ => 0)) sample_map (by decide) (by decide) (by decide)
      (by decide)).2.2.2.2⟩

/-! ## Lemmas: candidates without length -/

theorem trim_step_of_empty (e : externals) (st : Nat × (Fin 4 → brw_ubo_range)) (i : Fin 4)
    (hp : st.1 ≤ 64) (hz : (st.2 i).length = 0) : trim_step e st i = st := by
  have hc : ¬ (st.1 + (st.2 i).length) % 4294967296 > 64 := by rw [hz]; omega
  have hm : (st.1 + (st.2 i).length) % 4294967296 = st.1 := by rw [hz]; omega
  have hgt : ¬ st.1 > 64 := by omega
  simp only [trim_step, hc, hgt, if_false, hm]

theorem trim_ubo_ranges_of_empty (e : externals) (p : Nat) (ubo : Fin 4 → brw_ubo_range)
    (hp : p ≤ 64) (hz : ∀ i, (ubo i).length = 0) :
    trim_ubo_ranges e p ubo = (p, ubo) := by
  have hfold : trim_ubo_ranges e p ubo =
      trim_step e (trim_step e (trim_step e (trim_step e (p, ubo) 0) 1) 2) 3 := rfl
  rw [hfold, trim_step_of_empty e (p, ubo) 0 hp (hz 0), trim_step_of_empty e (p, ubo) 1 hp (hz 1),
    trim_step_of_empty e (p, ubo) 2 hp (hz 2), trim_step_of_empty e (p, ubo) 3 hp (hz 3)]

theorem nonempty_candidates_of_empty (ubo : Fin 4 → brw_ubo_range)
    (hz : ∀ i, (ubo i).length = 0) : nonempty_candidates ubo = [] := by
  simp [nonempty_candidates, hz]

/-! ## C8: Scenario B -/

/-- C8 (counterexample): on the packed path (generation 9) the module whose
only push-constant load covers bytes `[64, 96)`, with no UBO candidate, has
its push-constant range in slot 3 and slot 0 empty. -/
theorem packed_path_puts_scenario_b_in_slot_three :
    (anv_nir_compute_push_layout (sample_externals 8 8 (fun _ => 0)) (sample_device 9)
        (sample_shader gl_shader_stage.MESA_SHADER_VERTEX [push_load 64 32])
        (sample_prog_data (fun _ => 0)) sample_map).map.push_ranges 0 = empty_push_range ∧
    (anv_nir_compute_push_layout (sample_externals 8 8 (fun _ => 0)) (sample_device 9)
        (sample_shader gl_shader_stage.MESA_SHADER_VERTEX [push_load 64 32])
        (sample_prog_data (fun _ => 0)) sample_map).map.push_ranges 0 ≠
      { set := 252, index := 0, dynamic_offset_index := 0, start := 2, length := 1 } ∧
    (anv_nir_compute_push_layout (sample_externals 8 8 (fun _ => 0)) (sample_device 9)
        (sample_shader gl_shader_stage.MESA_SHADER_VERTEX [push_load 64 32])
        (sample_prog_data (fun _ => 0)) sample_map).map.push_ranges 3 =
      { set := 252, index := 0, dynamic_offset_index := 0, start := 2, length := 1 } := by
  decide

/-- C8 (amended): for a module of a scalar, non-compute stage whose only
push-constant load covers bytes `[64, 96)` and with no UBO candidate (slot
fields at least 2 bits wide), `push_start = 64`, `num_uniforms = 32`,
`nr_params = 8` and the push-constant range has start 2 and length 1; on the
simple path it is in slot 0 and slots 1..3 are empty, on the packed path it
is in slot 3 and slots 0..2 are empty. -/
theorem scenario_b (e : externals) (pdevice : anv_physical_device)
    (nir : nir_shader) (prog_data : brw_stage_prog_data) (map : anv_pipeline_bind_map)
    (hloads : push_loads nir =
      [{ intrinsic := nir_intrinsic_op.load_push_constant, base := 64, range := 32 }])
    (hscalar : pdevice.compiler.scalar_stage nir.stage = true)
    (hstage : is_compute nir = false)
    (hbits : 2 ≤ e.push_range_bits)
    (hubo : packed_path pdevice nir = true →
      ∀ i, (analysed_ubo_ranges e pdevice nir i).length = 0) :
    (anv_nir_compute_push_layout e pdevice nir prog_data map).push_start = 64 ∧
    (anv_nir_compute_push_layout e pdevice nir prog_data map).nir.num_uniforms = 32 ∧
    (anv_nir_compute_push_layout e pdevice nir prog_data map).prog_data.nr_params = 8 ∧
    (anv_nir_compute_push_layout e pdevice nir prog_data map).push_constant_range =
      { set := e.ANV_DESCRIPTOR_SET_PUSH_CONSTANTS, index := 0, dynamic_offset_index := 0,
        start := 2, length := 1 } ∧
    (packed_path pdevice nir = false →
      (anv_nir_compute_push_layout e pdevice nir prog_data map).map.push_ranges 0 =
        { set := e.ANV_DESCRIPTOR_SET_PUSH_CONSTANTS, index := 0, dynamic_offset_index := 0,
          start := 2, length := 1 } ∧
      ∀ j : Fin 4, j ≠ 0 →
        (anv_nir_compute_push_layout e pdevice nir prog_data map).map.push_ranges j =
          empty_push_range) ∧
    (packed_path pdevice nir = true →
      (anv_nir_compute_push_layout e pdevice nir prog_data map).map.push_ranges 3 =
        { set := e.ANV_DESCRIPTOR_SET_PUSH_CONSTANTS, index := 0, dynamic_offset_index := 0,
          start := 2, length := 1 } ∧
      ∀ j : Fin 4, j ≠ 3 →
        (anv_nir_compute_push_layout e pdevice nir prog_data map).map.push_ranges j =
          empty_push_range) := by
  have hscan : scan_shader nir = (64, 96) := by
    rw [scan_shader_eq, hloads]
    rfl
  have hend : push_end_of e nir = 96 := by
    simp [push_end_of, hstage, hscan]
  have hmask : 64 &&& 4294967264 = 64 := by decide
  have hstart : push_start_of e nir = 64 := by
    simp [push_start_of, hend, hscan, hmask]
  have hsize : push_size_of e nir = 32 := by
    simp [push_size_of, hend, hstart]
  have hnum : num_uniforms_of e pdevice nir = 32 := by
    simp [num_uniforms_of, align_of, hscalar, hsize, ALIGN]
  have hpow : 4 ≤ 2 ^ e.push_range_bits := by
    calc 4 = 2 ^ 2 := by norm_num
      _ ≤ 2 ^ e.push_range_bits := Nat.pow_le_pow_right (by decide) hbits
  have hpcr : push_constant_range_of e nir =
      { set := e.ANV_DESCRIPTOR_SET_PUSH_CONSTANTS, index := 0, dynamic_offset_index := 0,
        start := 2, length := 1 } := by
    have h1 : (1 : Nat) % 2 ^ e.push_range_bits = 1 := Nat.mod_eq_of_lt (by omega)
    have h2 : (2 : Nat) % 2 ^ e.push_range_bits = 2 := Nat.mod_eq_of_lt (by omega)
    simp [push_constant_range_of, hstart, hsize, DIV_ROUND_UP, h1, h2]
  rw [layout_push_start, layout_nir, layout_nr_params, layout_push_constant_range]
  refine ⟨hstart, by simp [nir_after, hnum], by rw [hnum], hpcr, ?_, ?_⟩
  · intro hpath
    rw [(layout_simple e pdevice nir prog_data map hpath).1, hpcr]
    exact ⟨by simp, fun j hj => by simp [Function.update, hj]⟩
  · intro hpath
    have hz := hubo hpath
    have htrim := trim_ubo_ranges_of_empty e (push_constant_range_of e nir).length
      (analysed_ubo_ranges e pdevice nir) (by rw [hpcr]; exact (by decide : (1 : Nat) ≤ 64)) hz
    rw [layout_packed_slots e pdevice nir prog_data map hpath,
      (layout_packed e pdevice nir prog_data map hpath).2.1, htrim, hpcr]
    have hc := nonempty_candidates_of_empty (analysed_ubo_ranges e pdevice nir) hz
    have v3 : ((3 : Fin 4) : Nat) = 3 := rfl
    refine ⟨by simp [packed_slot, hc, v3], fun j hj => ?_⟩
    have : j.val ≠ 3 := fun h => hj (Fin.ext h)
    have hj3 : j.val < 4 := j.isLt
    have h1 : ¬ 4 ≤ j.val := by omega
    have h2 : ¬ j.val + 1 = 4 := by omega
    simp [packed_slot, hc, h1, h2]

/-- C8 (witness): generation 7, vertex stage, one load of bytes `[64, 96)`. -/
theorem scenario_b_witness :
    (anv_nir_compute_push_layout (sample_externals 8 8 (fun _ => 0)) (sample_device 7)
        (sample_shader gl_shader_stage.MESA_SHADER_VERTEX [push_load 64 32])
        (sample_prog_data (fun _ => 0)) sample_map).push_start = 64 ∧
    (anv_nir_compute_push_layout (sample_externals 8 8 (fun _ => 0)) (sample_device 7)
        (sample_shader gl_shader_stage.MESA_SHADER_VERTEX [push_load 64 32])
        (sample_prog_data (fun _ => 0)) sample_map).nir.num_uniforms = 32 ∧
    (anv_nir_compute_push_layout (sample_externals 8 8 (fun _ => 0)) (sample_device 7)
        (sample_shader gl_shader_stage.MESA_SHADER_VERTEX [push_load 64 32])
        (sample_prog_data (fun _ => 0)) sample_map).prog_data.nr_params = 8 :=
  ⟨(scenario_b (sample_externals 8 8 (fun _ => 0)) (sample_device 7)
      (sample_shader gl_shader_stage.MESA_SHADER_VERTEX [push_load 64 32])
      (sample_prog_data (fun _ => 0)) sample_map (by decide) (by decide) (by decide)
      (by decide) (by decide)).1,
   (scenario_b (sample_externals 8 8 (fun _ => 0)) (sample_device 7)
      (sample_shader gl_shader_stage.MESA_SHADER_VERTEX [push_load 64 32])
      (sample_prog_data (fun _ => 0)) sample_map (by decide) (by decide) (by decide)
      (by decide) (by decide)).2.1,
   (scenario_b (sample_externals 8 8 (fun _ => 0)) (sample_device 7)
      (sample_shader gl_shader_stage.MESA_SHADER_VERTEX [push_load 64 32])
      (sample_prog_data (fun _ => 0)) sample_map (by decide) (by decide) (by decide)
      (by decide) (by decide)).2.2.1⟩

/-! ## Lemmas: the checked run -/

theorem checked_of_flags (e : externals) (pdevice : anv_physical_device) (nir : nir_shader)
    (prog_data : brw_stage_prog_data) (map : anv_pipeline_bind_map)
    (h1 : (anv_nir_compute_push_layout e pdevice nir prog_data map).stage_assert = true)
    (h2 : (anv_nir_compute_push_layout e pdevice nir prog_data map).capacity_assert = true)
    (h3 : (anv_nir_compute_push_layout e pdevice nir prog_data map).stores_in_bounds = true) :
    anv_nir_compute_push_layout_checked e pdevice nir prog_data map =
      some (anv_nir_compute_push_layout e pdevice nir prog_data map) := by
  simp [anv_nir_compute_push_layout_checked, h1, h2, h3]

theorem packed_path_of_compute (pdevice : anv_physical_device) (nir : nir_shader)
    (h : is_compute nir = true) : packed_path pdevice nir = false := by
  simp [packed_path, h]

/-! ## C9: no push-constant load -/

/-- C9 (counterexample): on the simple path (generation 7, vertex stage) a
module with no push-constant load leaves in slot 0 the push-constant range
descriptor, owner tag included, with start 0 and length 0. -/
theorem degenerate_simple_path_keeps_owner_tag :
    (anv_nir_compute_push_layout (sample_externals 8 8 (fun _ => 0)) (sample_device 7)
        (sample_shader gl_shader_stage.MESA_SHADER_VERTEX [])
        (sample_prog_data (fun _ => 0)) sample_map).map.push_ranges 0 =
      (anv_nir_compute_push_layout (sample_externals 8 8 (fun _ => 0)) (sample_device 7)
        (sample_shader gl_shader_stage.MESA_SHADER_VERTEX [])
        (sample_prog_data (fun _ => 0)) sample_map).push_constant_range ∧
    ((anv_nir_compute_push_layout (sample_externals 8 8 (fun _ => 0)) (sample_device 7)
        (sample_shader gl_shader_stage.MESA_SHADER_VERTEX [])
        (sample_prog_data (fun _ => 0)) sample_map).map.push_ranges 0).set =
      (sample_externals 8 8 (fun _ => 0)).ANV_DESCRIPTOR_SET_PUSH_CONSTANTS ∧
    ¬ (∀ k : Fin 4,
      ((anv_nir_compute_push_layout (sample_externals 8 8 (fun _ => 0)) (sample_device 7)
        (sample_shader gl_shader_stage.MESA_SHADER_VERTEX [])
        (sample_prog_data (fun _ => 0)) sample_map).map.push_ranges k).set ≠
      (sample_externals 8 8 (fun _ => 0)).ANV_DESCRIPTOR_SET_PUSH_CONSTANTS) := by
  decide

/-- C9 (amended): for a non-compute module with no push-constant load (on
the packed path, the UBO length field at most 31 bits wide and holding each
analysed length) the checked run does not fail, the functions are unchanged,
`push_start = 0`, the push-constant range has start 0 and length 0 and
`nr_params = 0`. On the packed path the push-constant range is stored in no
slot: each slot is empty or holds a non-empty UBO range, so no slot carries
the owner tag when the tag is not 0 and no binding has it as its set. On the
simple path slot 0 holds the push-constant range descriptor, owner tag
included, with start 0 and length 0, and slots 1..3 are empty. -/
theorem degenerate_input (e : externals) (pdevice : anv_physical_device)
    (nir : nir_shader) (prog_data : brw_stage_prog_data) (map : anv_pipeline_bind_map)
    (hloads : push_loads nir = []) (hstage : is_compute nir = false)
    (hfit : packed_path pdevice nir = true →
      e.ubo_range_bits ≤ 31 ∧
        ∀ i, (analysed_ubo_ranges e pdevice nir i).length < 2 ^ e.ubo_range_bits) :
    anv_nir_compute_push_layout_checked e pdevice nir prog_data map =
      some (anv_nir_compute_push_layout e pdevice nir prog_data map) ∧
    (anv_nir_compute_push_layout e pdevice nir prog_data map).nir.functions = nir.functions ∧
    (anv_nir_compute_push_layout e pdevice nir prog_data map).push_start = 0 ∧
    (anv_nir_compute_push_layout e pdevice nir prog_data map).push_constant_range =
      { set := e.ANV_DESCRIPTOR_SET_PUSH_CONSTANTS, index := 0, dynamic_offset_index := 0,
        start := 0, length := 0 } ∧
    (anv_nir_compute_push_layout e pdevice nir prog_data map).prog_data.nr_params = 0 ∧
    (packed_path pdevice nir = true →
      (∀ k : Fin 4,
        (anv_nir_compute_push_layout e pdevice nir prog_data map).map.push_ranges k =
            empty_push_range ∨
        ∃ i : Fin 4,
          ((anv_nir_compute_push_layout e pdevice nir prog_data map).prog_data.ubo_ranges
            i).length ≠ 0 ∧
          (anv_nir_compute_push_layout e pdevice nir prog_data map).map.push_ranges k =
            ubo_push_range e map
              ((anv_nir_compute_push_layout e pdevice nir prog_data map).prog_data.ubo_ranges
                i)) ∧
      (e.ANV_DESCRIPTOR_SET_PUSH_CONSTANTS ≠ 0 →
        (∀ b, (map.surface_to_descriptor b).set ≠ e.ANV_DESCRIPTOR_SET_PUSH_CONSTANTS) →
        ∀ k : Fin 4,
          ((anv_nir_compute_push_layout e pdevice nir prog_data map).map.push_ranges k).set ≠
            e.ANV_DESCRIPTOR_SET_PUSH_CONSTANTS)) ∧
    (packed_path pdevice nir = false →
      (anv_nir_compute_push_layout e pdevice nir prog_data map).map.push_ranges 0 =
        { set := e.ANV_DESCRIPTOR_SET_PUSH_CONSTANTS, index := 0, dynamic_offset_index := 0,
          start := 0, length := 0 } ∧
      ∀ j : Fin 4, j ≠ 0 →
        (anv_nir_compute_push_layout e pdevice nir prog_data map).map.push_ranges j =
          empty_push_range) := by
  obtain ⟨_, hstart, _, hnum, hpcr⟩ := no_loads_non_compute e pdevice nir hloads hstage
  have hslots : packed_path pdevice nir = true → ∀ k : Fin 4,
      (anv_nir_compute_push_layout e pdevice nir prog_data map).map.push_ranges k =
          empty_push_range ∨
      ∃ i : Fin 4,
        ((anv_nir_compute_push_layout e pdevice nir prog_data map).prog_data.ubo_ranges
          i).length ≠ 0 ∧
        (anv_nir_compute_push_layout e pdevice nir prog_data map).map.push_ranges k =
          ubo_push_range e map
            ((anv_nir_compute_push_layout e pdevice nir prog_data map).prog_data.ubo_ranges
              i) := by
    intro hpath k
    rw [layout_packed_slots e pdevice nir prog_data map hpath]
    by_cases hk : 4 ≤ k.val + (nonempty_candidates
        (anv_nir_compute_push_layout e pdevice nir prog_data map).prog_data.ubo_ranges).length
    · right
      have hk4 := k.isLt
      refine ⟨_, nonempty_candidates_getD _ (3 - k.val) (by omega), ?_⟩
      simp only [packed_slot, hk, if_true]
    · left
      simp [packed_slot, hk, hpcr]
  refine ⟨?_, ?_, ?_, ?_, ?_, ?_, ?_⟩
  · apply checked_of_flags
    · rw [layout_stage_assert]
      simp [stage_assert, hstage]
    · cases hpath : packed_path pdevice nir with
      | false => exact (layout_simple e pdevice nir prog_data map hpath).2.2.2.1
      | true =>
        obtain ⟨hbits, hlen⟩ := hfit hpath
        rw [(layout_packed e pdevice nir prog_data map hpath).2.2.2.1]
        have hsum := (trim_ubo_ranges_spec e (push_constant_range_of e nir).length
          (analysed_ubo_ranges e pdevice nir) (by rw [hpcr]; exact Nat.zero_le _) hlen hbits).1
        rw [hsum, clamp_lengths_total _ _ _ _ _ (by rw [hpcr]; exact Nat.zero_le _)]
        simp
    · cases hpath : packed_path pdevice nir with
      | false => exact (layout_simple e pdevice nir prog_data map hpath).2.2.2.2
      | true =>
        rw [layout_packed_in_bounds e pdevice nir prog_data map hpath, hpcr]
        simp
  · rw [layout_nir]
    simp [nir_after, has_push_intrinsic_no_loads nir hloads]
  · rw [layout_push_start]
    exact hstart
  · rw [layout_push_constant_range]
    exact hpcr
  · rw [layout_nr_params, hnum]
  · intro hpath
    refine ⟨hslots hpath, fun htag hsets k => ?_⟩
    rcases hslots hpath k with h | ⟨i, _, h⟩
    · rw [h]
      exact fun h0 => htag h0.symm
    · rw [h]
      exact hsets _
  · intro hpath
    rw [(layout_simple e pdevice nir prog_data map hpath).1, hpcr]
    exact ⟨by simp, fun j hj => by simp [Function.update, hj]⟩

/-- C9 (witness): generation 9, fragment stage, no push-constant load and
candidates of 0, 10, 0 and 3 registers. -/
theorem degenerate_input_witness :
    (anv_nir_compute_push_layout_checked (sample_externals 8 8 ![0, 10, 0, 3]) (sample_device 9)
        (sample_shader gl_shader_stage.MESA_SHADER_FRAGMENT [nir_instr.other_instr 4])
        (sample_prog_data (fun _ => 0)) sample_map).isSome = true ∧
    (anv_nir_compute_push_layout (sample_externals 8 8 ![0, 10, 0, 3]) (sample_device 9)
        (sample_shader gl_shader_stage.MESA_SHADER_FRAGMENT [nir_instr.other_instr 4])
        (sample_prog_data (fun _ => 0)) sample_map).prog_data.nr_params = 0 :=
  ⟨by rw [(degenerate_input (sample_externals 8 8 ![0, 10, 0, 3]) (sample_device 9)
        (sample_shader gl_shader_stage.MESA_SHADER_FRAGMENT [nir_instr.other_instr 4])
        (sample_prog_data (fun _ => 0)) sample_map (by decide) (by decide) (by decide)).1]; rfl,
   (degenerate_input (sample_externals 8 8 ![0, 10, 0, 3]) (sample_device 9)
        (sample_shader gl_shader_stage.MESA_SHADER_FRAGMENT [nir_instr.other_instr 4])
        (sample_prog_data (fun _ => 0)) sample_map (by decide) (by decide)
        (by decide)).2.2.2.2.1⟩

/-! ## C10: compute reservation -/

/-- C10: with the reserved subgroup-id offset `R` below `2 ^ 32`: for a
compute module whose scanned end is at most `R` the assertion holds and
`push_end` is `R`; for every other stage `push_end` is the scanned end; and
for a compute module with no push-constant load the checked run does not
fail, `push_start` is `R` aligned down to 32, `nr_params` is
`ALIGN(R - push_start, align) / 4`, and for a scalar stage with `R` a
multiple of 4 the parameters end at `R`: `push_start + 4 * nr_params = R`. -/
theorem compute_reservation (e : externals) (pdevice : anv_physical_device)
    (nir : nir_shader) (prog_data : brw_stage_prog_data) (map : anv_pipeline_bind_map)
    (hR : e.subgroup_id_offset < 4294967296) :
    (is_compute nir = true → (scan_shader nir).2 ≤ e.subgroup_id_offset →
      (anv_nir_compute_push_layout e pdevice nir prog_data map).push_end =
        e.subgroup_id_offset ∧
      (anv_nir_compute_push_layout e pdevice nir prog_data map).stage_assert = true) ∧
    (is_compute nir = false →
      (anv_nir_compute_push_layout e pdevice nir prog_data map).push_end =
        (scan_shader nir).2 ∧
      (anv_nir_compute_push_layout e pdevice nir prog_data map).stage_assert = true) ∧
    (is_compute nir = true → push_loads nir = [] →
      anv_nir_compute_push_layout_checked e pdevice nir prog_data map =
        some (anv_nir_compute_push_layout e pdevice nir prog_data map) ∧
      (anv_nir_compute_push_layout e pdevice nir prog_data map).push_start =
        e.subgroup_id_offset / 32 * 32 ∧
      (anv_nir_compute_push_layout e pdevice nir prog_data map).prog_data.nr_params =
        ALIGN (e.subgroup_id_offset - e.subgroup_id_offset / 32 * 32)
          (align_of pdevice nir) / 4 ∧
      (pdevice.compiler.scalar_stage nir.stage = true → e.subgroup_id_offset % 4 = 0 →
        (anv_nir_compute_push_layout e pdevice nir prog_data map).push_start +
          4 * (anv_nir_compute_push_layout e pdevice nir prog_data map).prog_data.nr_params =
          e.subgroup_id_offset)) := by
  rw [layout_push_end, layout_stage_assert, layout_push_start, layout_nr_params]
  refine ⟨?_, ?_, ?_⟩
  · intro hc hscan
    simp [push_end_of, stage_assert, hc, hscan, Nat.mod_eq_of_lt hR]
  · intro hc
    simp [push_end_of, stage_assert, hc]
  · intro hc hloads
    have hpath := packed_path_of_compute pdevice nir hc
    have hscan := scan_shader_no_loads nir hloads
    have hend : push_end_of e nir = e.subgroup_id_offset := by
      simp [push_end_of, hc, Nat.mod_eq_of_lt hR]
    have hmin : min (scan_shader nir).1 (push_end_of e nir) = e.subgroup_id_offset := by
      rw [hscan, hend]
      simp only
      omega
    have hstart : push_start_of e nir = e.subgroup_id_offset / 32 * 32 := by
      rw [push_start_eq, hmin]
    have hsize : push_size_of e nir =
        e.subgroup_id_offset - e.subgroup_id_offset / 32 * 32 := by
      rw [push_size_eq e nir (by rw [hend]; exact hR), hend, hstart]
    have halign : align_of pdevice nir = 4 ∨ align_of pdevice nir = 16 := by
      unfold align_of
      split <;> simp
    have hnum : num_uniforms_of e pdevice nir =
        ALIGN (e.subgroup_id_offset - e.subgroup_id_offset / 32 * 32) (align_of pdevice nir) := by
      unfold num_uniforms_of
      rw [hsize]
      apply Nat.mod_eq_of_lt
      unfold ALIGN
      rcases halign with h | h <;> rw [h] <;> omega
    refine ⟨?_, hstart, by rw [hnum], ?_⟩
    · apply checked_of_flags
      · rw [layout_stage_assert]
        simp [stage_assert, hc, hscan]
      · exact (layout_simple e pdevice nir prog_data map hpath).2.2.2.1
      · exact (layout_simple e pdevice nir prog_data map hpath).2.2.2.2
    · intro hscalar h4
      rw [hnum, hstart]
      simp only [align_of, hscalar, if_true, ALIGN]
      omega

/-- C10 (witness): a compute module with no push-constant load and the
subgroup id at offset 140: `push_start = 128`, `nr_params = 3`. -/
theorem compute_reservation_witness :
    (anv_nir_compute_push_layout (sample_externals 8 8 (fun _ => 0)) (sample_device 9)
        (sample_shader gl_shader_stage.MESA_SHADER_COMPUTE [])
        (sample_prog_data (fun _ => 0)) sample_map).push_start +
      4 * (anv_nir_compute_push_layout (sample_externals 8 8 (fun _ => 0)) (sample_device 9)
        (sample_shader gl_shader_stage.MESA_SHADER_COMPUTE [])
        (sample_prog_data (fun _ => 0)) sample_map).prog_data.nr_params = 140 :=
  ((compute_reservation (sample_externals 8 8 (fun _ => 0)) (sample_device 9)
      (sample_shader gl_shader_stage.MESA_SHADER_COMPUTE [])
      (sample_prog_data (fun _ => 0)) sample_map (by decide)).2.2 (by decide)
      (by decide)).2.2.2 (by decide) (by decide)

/-! ## Lemmas: bounds of the scanned interval -/

theorem foldl_widen_snd_lt (loads : List nir_intrinsic_instr) (acc : Nat × Nat)
    (h : acc.2 < 4294967296) : (loads.foldl widen acc).2 < 4294967296 := by
  induction loads generalizing acc with
  | nil => exact h
  | cons intrin rest ih =>
    rw [List.foldl_cons]
    apply ih
    have := Nat.mod_lt (intrin.base + intrin.range) (by decide : 0 < 4294967296)
    simp only [widen]
    omega

theorem scan_shader_snd_lt (nir : nir_shader) : (scan_shader nir).2 < 4294967296 := by
  rw [scan_shader_eq]
  exact foldl_widen_snd_lt _ _ (by decide)

theorem push_end_lt (e : externals) (nir : nir_shader) : push_end_of e nir < 4294967296 := by
  unfold push_end_of
  split
  · exact Nat.mod_lt _ (by decide)
  · exact scan_shader_snd_lt nir

/-! ## C11: path selection and the simple path -/

/-- C11 (counterexample): on the simple path (generation 7, vertex stage)
with 8-bit slot fields, a push-constant load at base 8192 gives
`push_start = 8192`, so `push_start / 32 = 256`; the start field of slot 0
holds 256 reduced to 8 bits, which is 0. -/
theorem simple_path_start_does_not_fit :
    (anv_nir_compute_push_layout (sample_externals 8 8 (fun _ => 0)) (sample_device 7)
        (sample_shader gl_shader_stage.MESA_SHADER_VERTEX [push_load 8192 32])
        (sample_prog_data (fun _ => 0)) sample_map).push_start / 32 = 256 ∧
    (anv_nir_compute_push_layout (sample_externals 8 8 (fun _ => 0)) (sample_device 7)
        (sample_shader gl_shader_stage.MESA_SHADER_VERTEX [push_load 8192 32])
        (sample_prog_data (fun _ => 0)) sample_map).map.push_ranges 0 =
      { set := 252, index := 0, dynamic_offset_index := 0, start := 0, length := 1 } ∧
    ((anv_nir_compute_push_layout (sample_externals 8 8 (fun _ => 0)) (sample_device 7)
        (sample_shader gl_shader_stage.MESA_SHADER_VERTEX [push_load 8192 32])
        (sample_prog_data (fun _ => 0)) sample_map).map.push_ranges 0).start ≠
      (anv_nir_compute_push_layout (sample_externals 8 8 (fun _ => 0)) (sample_device 7)
        (sample_shader gl_shader_stage.MESA_SHADER_VERTEX [push_load 8192 32])
        (sample_prog_data (fun _ => 0)) sample_map).push_start / 32 := by
  decide

/-- C11 (amended): the packed path is taken exactly when (`gen >= 8` or
`is_haswell`) and the stage is not compute, so a compute stage takes the
simple path on every generation; on the simple path `push_ranges[0]` is the
push-constant range verbatim: the owner tag, `push_start / 32` reduced to the
width of the start field and `DIV_ROUND_UP(push_end - push_start, 32)`
reduced to the width of the length field; the start is `push_start / 32`
whenever that fits the field, and the length is the exact rounded-up quotient
whenever adding 31 does not wrap 32 bits and the quotient fits the field;
slots 1..3 are empty, `prog_data->ubo_ranges` is left as it was, and the slots
depend neither on those ranges nor on the UBO analysis. -/
theorem simple_path_stores_range_verbatim (e : externals) (pdevice : anv_physical_device)
    (nir : nir_shader) (prog_data : brw_stage_prog_data) (map : anv_pipeline_bind_map) :
    (packed_path pdevice nir = true ↔
      (pdevice.info.gen ≥ 8 ∨ pdevice.info.is_haswell = true) ∧
        nir.stage ≠ gl_shader_stage.MESA_SHADER_COMPUTE) ∧
    (nir.stage = gl_shader_stage.MESA_SHADER_COMPUTE → packed_path pdevice nir = false) ∧
    (packed_path pdevice nir = false →
      (anv_nir_compute_push_layout e pdevice nir prog_data map).map.push_ranges 0 =
        { set := e.ANV_DESCRIPTOR_SET_PUSH_CONSTANTS, index := 0, dynamic_offset_index := 0,
          start := ((anv_nir_compute_push_layout e pdevice nir prog_data map).push_start / 32) %
            2 ^ e.push_range_bits,
          length := DIV_ROUND_UP
            ((anv_nir_compute_push_layout e pdevice nir prog_data map).push_end -
              (anv_nir_compute_push_layout e pdevice nir prog_data map).push_start) 32 %
            2 ^ e.push_range_bits } ∧
      ((anv_nir_compute_push_layout e pdevice nir prog_data map).push_start / 32 <
          2 ^ e.push_range_bits →
        ((anv_nir_compute_push_layout e pdevice nir prog_data map).map.push_ranges 0).start =
          (anv_nir_compute_push_layout e pdevice nir prog_data map).push_start / 32) ∧
      ((anv_nir_compute_push_layout e pdevice nir prog_data map).push_end -
          (anv_nir_compute_push_layout e pdevice nir prog_data map).push_start + 31
          < 4294967296 →
        ((anv_nir_compute_push_layout e pdevice nir prog_data map).push_end -
          (anv_nir_compute_push_layout e pdevice nir prog_data map).push_start + 31) / 32
          < 2 ^ e.push_range_bits →
        ((anv_nir_compute_push_layout e pdevice nir prog_data map).map.push_ranges 0).length =
          ((anv_nir_compute_push_layout e pdevice nir prog_data map).push_end -
            (anv_nir_compute_push_layout e pdevice nir prog_data map).push_start + 31) / 32) ∧
      (∀ j : Fin 4, j ≠ 0 →
        (anv_nir_compute_push_layout e pdevice nir prog_data map).map.push_ranges j =
          empty_push_range) ∧
      (anv_nir_compute_push_layout e pdevice nir prog_data map).prog_data.ubo_ranges =
        prog_data.ubo_ranges ∧
      ∀ (analysis : brw_compiler → nir_shader → Fin 4 → brw_ubo_range)
        (ubo_ranges : Fin 4 → brw_ubo_range),
        (anv_nir_compute_push_layout { e with brw_nir_analyze_ubo_ranges := analysis } pdevice nir
          { prog_data with ubo_ranges := ubo_ranges } map).map.push_ranges =
        (anv_nir_compute_push_layout e pdevice nir prog_data map).map.push_ranges) := by
  refine ⟨?_, ?_, ?_⟩
  · simp only [packed_path, is_compute, Bool.and_eq_true, Bool.or_eq_true, decide_eq_true_eq,
      Bool.not_eq_true', decide_eq_false_iff_not, ge_iff_le, ne_eq]
  · intro hstage
    simp [packed_path, is_compute, hstage]
  · intro hpath
    have hsize := push_size_eq e nir (push_end_lt e nir)
    rw [layout_push_start, layout_push_end, (layout_simple e pdevice nir prog_data map hpath).1,
      (layout_simple e pdevice nir prog_data map hpath).2.1]
    refine ⟨?_, ?_, ?_, fun j hj => by simp [Function.update, hj], rfl, ?_⟩
    · simp only [Function.update_same, push_constant_range_of]
      rw [hsize]
    · intro hstart
      simp only [Function.update_same, push_constant_range_of]
      exact Nat.mod_eq_of_lt hstart
    · intro hwrap hlen
      have h2 : DIV_ROUND_UP (push_size_of e nir) 32 =
          (push_end_of e nir - push_start_of e nir + 31) / 32 := by
        unfold DIV_ROUND_UP
        rw [hsize, show push_end_of e nir - push_start_of e nir + 32 - 1 =
          push_end_of e nir - push_start_of e nir + 31 from rfl, Nat.mod_eq_of_lt hwrap]
      simp only [Function.update_same, push_constant_range_of]
      rw [h2]
      exact Nat.mod_eq_of_lt hlen
    · intro analysis ubo_ranges
      exact (layout_simple { e with brw_nir_analyze_ubo_ranges := analysis } pdevice nir
        { prog_data with ubo_ranges := ubo_ranges } map hpath).1

/-- C11 (witness): a compute stage on generation 9 with the subgroup id at
offset 140 and a load of bytes `[0, 16)` takes the simple path: slot 0 is the
push-constant range with start 0 and length 5. -/
theorem simple_path_stores_range_verbatim_witness :
    packed_path (sample_device 9)
      (sample_shader gl_shader_stage.MESA_SHADER_COMPUTE [push_load 0 16]) = false ∧
    (anv_nir_compute_push_layout (sample_externals 8 8 (fun _ => 9)) (sample_device 9)
        (sample_shader gl_shader_stage.MESA_SHADER_COMPUTE [push_load 0 16])
        (sample_prog_data (fun _ => 7)) sample_map).map.push_ranges 0 =
      { set := 252, index := 0, dynamic_offset_index := 0, start := 0, length := 5 } ∧
    ((anv_nir_compute_push_layout (sample_externals 8 8 (fun _ => 9)) (sample_device 9)
        (sample_shader gl_shader_stage.MESA_SHADER_COMPUTE [push_load 0 16])
        (sample_prog_data (fun _ => 7)) sample_map).map.push_ranges 0).length =
      ((anv_nir_compute_push_layout (sample_externals 8 8 (fun _ => 9)) (sample_device 9)
        (sample_shader gl_shader_stage.MESA_SHADER_COMPUTE [push_load 0 16])
        (sample_prog_data (fun _ => 7)) sample_map).push_end -
      (anv_nir_compute_push_layout (sample_externals 8 8 (fun _ => 9)) (sample_device 9)
        (sample_shader gl_shader_stage.MESA_SHADER_COMPUTE [push_load 0 16])
        (sample_prog_data (fun _ => 7)) sample_map).push_start + 31) / 32 :=
  ⟨(simple_path_stores_range_verbatim (sample_externals 8 8 (fun _ => 9)) (sample_device 9)
      (sample_shader gl_shader_stage.MESA_SHADER_COMPUTE [push_load 0 16])
      (sample_prog_data (fun _ => 7)) sample_map).2.1 rfl,
   (((simple_path_stores_range_verbatim (sample_externals 8 8 (fun _ => 9)) (sample_device 9)
      (sample_shader gl_shader_stage.MESA_SHADER_COMPUTE [push_load 0 16])
      (sample_prog_data (fun _ => 7)) sample_map).2.2 (by decide)).1).trans (by decide),
   ((simple_path_stores_range_verbatim (sample_externals 8 8 (fun _ => 9)) (sample_device 9)
      (sample_shader gl_shader_stage.MESA_SHADER_COMPUTE [push_load 0 16])
      (sample_prog_data (fun _ => 7)) sample_map).2.2 (by decide)).2.2.1 (by decide)
      (by decide)⟩

/-! ## Lemmas: order of visitation -/

theorem widen_comm (acc : Nat × Nat) (x y : nir_intrinsic_instr) :
    widen (widen acc x) y = widen (widen acc y) x := by
  simp only [widen, Prod.mk.injEq]
  omega

theorem foldl_widen_perm (l1 l2 : List nir_intrinsic_instr) (acc : Nat × Nat)
    (h : l1.Perm l2) : l1.foldl widen acc = l2.foldl widen acc :=
  List.Perm.foldl_eq' h (fun x _ y _ z => widen_comm z x y) acc

theorem foldl_widen_attained (loads : List nir_intrinsic_instr) (acc : Nat × Nat) :
    ((loads.foldl widen acc).1 = acc.1 ∨
      ∃ intrin ∈ loads, intrin.base = (loads.foldl widen acc).1) ∧
    ((loads.foldl widen acc).2 = acc.2 ∨
      ∃ intrin ∈ loads,
        (intrin.base + intrin.range) % 4294967296 = (loads.foldl widen acc).2) := by
  induction loads generalizing acc with
  | nil => exact ⟨Or.inl rfl, Or.inl rfl⟩
  | cons head rest ih =>
    rw [List.foldl_cons]
    obtain ⟨h1, h2⟩ := ih (widen acc head)
    refine ⟨?_, ?_⟩
    · rcases h1 with h | ⟨i, hi, h⟩
      · rw [h]
        simp only [widen]
        rcases Nat.le_total acc.1 head.base with hle | hle
        · left
          exact Nat.min_eq_left hle
        · right
          exact ⟨head, List.mem_cons_self _ _, (Nat.min_eq_right hle).symm⟩
      · exact Or.inr ⟨i, List.mem_cons_of_mem _ hi, h⟩
    · rcases h2 with h | ⟨i, hi, h⟩
      · rw [h]
        simp only [widen]
        rcases Nat.le_total ((head.base + head.range) % 4294967296) acc.2 with hle | hle
        · left
          exact Nat.max_eq_left hle
        · right
          exact ⟨head, List.mem_cons_self _ _, (Nat.max_eq_right hle).symm⟩
      · exact Or.inr ⟨i, List.mem_cons_of_mem _ hi, h⟩

/-! ## C12: range scanner -/

/-- C12: when no `base + range` wraps 32 bits, the scanned interval bounds
every push-constant load of every function with a body (other instructions
and functions without a body do not count); with at least one load both
bounds are attained, so the interval is exactly
`[minimum base, maximum of base + range)` and is reported as non-empty; the
result is the same for every permutation of the loads, hence of the
functions, of the blocks of a function and of the instructions of a block;
with no load the scan yields the sentinel `(UINT_MAX, 0)` and the interval is
reported as empty. -/
theorem scanner_interval (nir : nir_shader)
    (hwrap : ∀ intrin ∈ push_loads nir, intrin.base + intrin.range < 4294967296) :
    scan_shader nir = (push_loads nir).foldl widen (4294967295, 0) ∧
    (∀ intrin ∈ push_loads nir,
      (scan_shader nir).1 ≤ intrin.base ∧ intrin.base + intrin.range ≤ (scan_shader nir).2) ∧
    (push_loads nir ≠ [] →
      (∃ intrin ∈ push_loads nir, intrin.base = (scan_shader nir).1) ∧
      (∃ intrin ∈ push_loads nir, intrin.base + intrin.range = (scan_shader nir).2) ∧
      has_push_intrinsic nir = true) ∧
    (∀ other : nir_shader, (push_loads other).Perm (push_loads nir) →
      scan_shader other = scan_shader nir) ∧
    (∀ other : nir_shader, other.functions.Perm nir.functions →
      (push_loads other).Perm (push_loads nir)) ∧
    (∀ blocks1 blocks2 : List nir_block, blocks1.Perm blocks2 →
      (function_loads { impl := some blocks1 }).Perm
        (function_loads { impl := some blocks2 })) ∧
    (∀ block1 block2 : nir_block, block1.instrs.Perm block2.instrs →
      (block_loads block1).Perm (block_loads block2)) ∧
    (push_loads nir = [] →
      scan_shader nir = (4294967295, 0) ∧ has_push_intrinsic nir = false) := by
  refine ⟨scan_shader_eq nir, ?_, ?_, ?_, ?_, ?_, ?_, ?_⟩
  · intro intrin hmem
    have hb := scan_shader_bounds nir intrin hmem
    rw [Nat.mod_eq_of_lt (hwrap intrin hmem)] at hb
    exact hb
  · intro hne
    obtain ⟨first, hfirst⟩ := List.exists_mem_of_ne_nil _ hne
    have hb := scan_shader_bounds nir first hfirst
    have hw := hwrap first hfirst
    rw [Nat.mod_eq_of_lt hw] at hb
    obtain ⟨h1, h2⟩ := foldl_widen_attained (push_loads nir) (4294967295, 0)
    rw [← scan_shader_eq] at h1 h2
    refine ⟨?_, ?_, has_push_intrinsic_of_load nir hne hwrap⟩
    · rcases h1 with h | h
      · exact ⟨first, hfirst, by simp only at h; omega⟩
      · exact h
    · rcases h2 with h | ⟨i, hi, h⟩
      · have hz : (scan_shader nir).2 = 0 := h
        exact ⟨first, hfirst, by omega⟩
      · exact ⟨i, hi, by rw [← h, Nat.mod_eq_of_lt (hwrap i hi)]⟩
  · intro other hperm
    rw [scan_shader_eq, scan_shader_eq]
    exact foldl_widen_perm _ _ _ hperm
  · intro other hperm
    exact List.Perm.flatMap_right function_loads hperm
  · intro blocks1 blocks2 hperm
    exact List.Perm.flatMap_right block_loads hperm
  · intro block1 block2 hperm
    exact List.Perm.flatMap_right instr_loads hperm
  · intro hloads
    exact ⟨scan_shader_no_loads nir hloads, has_push_intrinsic_no_loads nir hloads⟩

/-- C12 (witness): loads at bytes `[100, 116)` and `[68, 72)` around another
instruction give the interval `[68, 116)`. -/
theorem scanner_interval_witness :
    scan_shader (sample_shader gl_shader_stage.MESA_SHADER_FRAGMENT
      [nir_instr.other_instr 1, push_load 100 16, push_load 68 4]) = (68, 116) :=
  ((scanner_interval (sample_shader gl_shader_stage.MESA_SHADER_FRAGMENT
      [nir_instr.other_instr 1, push_load 100 16, push_load 68 4]) (by decide)).1).trans
    (by decide)

/-! ## C13: alignment and sizing -/

/-- C13 (counterexample): a vertex shader whose only push-constant load has
base 0 and range `2 ^ 32 - 1`: `push_end - push_start` is `2 ^ 32 - 1`, the
next multiple of 4 does not fit an `unsigned`, and `num_uniforms` is 0, which
is below `push_end - push_start`. -/
theorem storage_size_wraps_at_the_top :
    (anv_nir_compute_push_layout (sample_externals 8 32 (fun _ => 0)) (sample_device 7)
        (sample_shader gl_shader_stage.MESA_SHADER_VERTEX [push_load 0 4294967295])
        (sample_prog_data (fun _ => 0)) sample_map).push_end -
      (anv_nir_compute_push_layout (sample_externals 8 32 (fun _ => 0)) (sample_device 7)
        (sample_shader gl_shader_stage.MESA_SHADER_VERTEX [push_load 0 4294967295])
        (sample_prog_data (fun _ => 0)) sample_map).push_start = 4294967295 ∧
    (anv_nir_compute_push_layout (sample_externals 8 32 (fun _ => 0)) (sample_device 7)
        (sample_shader gl_shader_stage.MESA_SHADER_VERTEX [push_load 0 4294967295])
        (sample_prog_data (fun _ => 0)) sample_map).nir.num_uniforms = 0 ∧
    ¬ ((anv_nir_compute_push_layout (sample_externals 8 32 (fun _ => 0)) (sample_device 7)
        (sample_shader gl_shader_stage.MESA_SHADER_VERTEX [push_load 0 4294967295])
        (sample_prog_data (fun _ => 0)) sample_map).push_end -
      (anv_nir_compute_push_layout (sample_externals 8 32 (fun _ => 0)) (sample_device 7)
        (sample_shader gl_shader_stage.MESA_SHADER_VERTEX [push_load 0 4294967295])
        (sample_prog_data (fun _ => 0)) sample_map).push_start ≤
      (anv_nir_compute_push_layout (sample_externals 8 32 (fun _ => 0)) (sample_device 7)
        (sample_shader gl_shader_stage.MESA_SHADER_VERTEX [push_load 0 4294967295])
        (sample_prog_data (fun _ => 0)) sample_map).nir.num_uniforms) := by
  decide

/-- C13 (amended): for every interval, `push_start` is
`min(start, end) / 32 * 32`, the largest multiple of 32 not above
`min(start, end)`, the granularity `g` is 4 for a scalar stage and 16
otherwise, and `nr_params` is `num_uniforms / 4` with no remainder; whenever
`push_start / 32` fits the slot start field, the slot's start times 32 is
`push_start`; and whenever `push_end - push_start` plus `g` does not exceed
`2 ^ 32`, the storage size `num_uniforms` is
`ALIGN(push_end - push_start, g)`, the least multiple of `g` not below
`push_end - push_start`. -/
theorem alignment_and_sizing (e : externals) (pdevice : anv_physical_device)
    (nir : nir_shader) (prog_data : brw_stage_prog_data) (map : anv_pipeline_bind_map) :
    (anv_nir_compute_push_layout e pdevice nir prog_data map).push_start =
      min (scan_shader nir).1 (anv_nir_compute_push_layout e pdevice nir prog_data map).push_end
        / 32 * 32 ∧
    (anv_nir_compute_push_layout e pdevice nir prog_data map).push_start % 32 = 0 ∧
    (anv_nir_compute_push_layout e pdevice nir prog_data map).push_start ≤
      min (scan_shader nir).1
        (anv_nir_compute_push_layout e pdevice nir prog_data map).push_end ∧
    (∀ m : Nat, m % 32 = 0 →
      m ≤ min (scan_shader nir).1
        (anv_nir_compute_push_layout e pdevice nir prog_data map).push_end →
      m ≤ (anv_nir_compute_push_layout e pdevice nir prog_data map).push_start) ∧
    align_of pdevice nir = (if pdevice.compiler.scalar_stage nir.stage then 4 else 16) ∧
    (anv_nir_compute_push_layout e pdevice nir prog_data map).prog_data.nr_params * 4 =
      (anv_nir_compute_push_layout e pdevice nir prog_data map).nir.num_uniforms ∧
    ((anv_nir_compute_push_layout e pdevice nir prog_data map).push_start / 32 <
        2 ^ e.push_range_bits →
      (anv_nir_compute_push_layout e pdevice nir prog_data map).push_constant_range.start * 32 =
        (anv_nir_compute_push_layout e pdevice nir prog_data map).push_start) ∧
    ((anv_nir_compute_push_layout e pdevice nir prog_data map).push_end -
        (anv_nir_compute_push_layout e pdevice nir prog_data map).push_start +
        align_of pdevice nir ≤ 4294967296 →
      (anv_nir_compute_push_layout e pdevice nir prog_data map).nir.num_uniforms =
        ALIGN ((anv_nir_compute_push_layout e pdevice nir prog_data map).push_end -
          (anv_nir_compute_push_layout e pdevice nir prog_data map).push_start)
          (align_of pdevice nir) ∧
      (anv_nir_compute_push_layout e pdevice nir prog_data map).nir.num_uniforms %
        align_of pdevice nir = 0 ∧
      (anv_nir_compute_push_layout e pdevice nir prog_data map).push_end -
          (anv_nir_compute_push_layout e pdevice nir prog_data map).push_start ≤
        (anv_nir_compute_push_layout e pdevice nir prog_data map).nir.num_uniforms ∧
      (∀ m : Nat, m % align_of pdevice nir = 0 →
        (anv_nir_compute_push_layout e pdevice nir prog_data map).push_end -
          (anv_nir_compute_push_layout e pdevice nir prog_data map).push_start ≤ m →
        (anv_nir_compute_push_layout e pdevice nir prog_data map).nir.num_uniforms ≤ m)) := by
  have hps := push_start_eq e nir
  have hd := push_size_eq e nir (push_end_lt e nir)
  have halign : align_of pdevice nir = 4 ∨ align_of pdevice nir = 16 := by
    unfold align_of
    split <;> simp
  have hnir : (nir_after e pdevice nir).num_uniforms = num_uniforms_of e pdevice nir := by
    simp [nir_after]
  rw [layout_push_start, layout_push_end, layout_nir, layout_nr_params,
    layout_push_constant_range, hnir]
  refine ⟨hps, ?_, ?_, ?_, rfl, ?_, ?_, ?_⟩
  · omega
  · omega
  · intro m hm hle
    omega
  · unfold num_uniforms_of ALIGN
    rcases halign with h | h <;> rw [h] <;> omega
  · intro hstart
    simp only [push_constant_range_of]
    rw [Nat.mod_eq_of_lt hstart]
    omega
  · intro hsize
    have hnum : num_uniforms_of e pdevice nir =
        ALIGN (push_end_of e nir - push_start_of e nir) (align_of pdevice nir) := by
      unfold num_uniforms_of
      rw [hd]
      apply Nat.mod_eq_of_lt
      unfold ALIGN
      rcases halign with h | h <;> rw [h] at hsize ⊢ <;> omega
    rw [hnum]
    refine ⟨rfl, ?_, ?_, ?_⟩
    · unfold ALIGN
      rcases halign with h | h <;> rw [h] <;> omega
    · unfold ALIGN
      rcases halign with h | h <;> rw [h] <;> omega
    · intro m hm hle
      unfold ALIGN
      rcases halign with h | h <;> rw [h] at hm ⊢ <;> omega

/-- C13 (witness): a geometry shader with a load of bytes `[70, 90)`:
`push_start = 64`, the slot's start is 2 and the 26 bytes are sized to 28. -/
theorem alignment_and_sizing_witness :
    (anv_nir_compute_push_layout (sample_externals 8 8 (fun _ => 0)) (sample_device 9)
        (sample_shader gl_shader_stage.MESA_SHADER_GEOMETRY [push_load 70 20])
        (sample_prog_data (fun _ => 0)) sample_map).push_constant_range.start * 32 =
      (anv_nir_compute_push_layout (sample_externals 8 8 (fun _ => 0)) (sample_device 9)
        (sample_shader gl_shader_stage.MESA_SHADER_GEOMETRY [push_load 70 20])
        (sample_prog_data (fun _ => 0)) sample_map).push_start ∧
    (anv_nir_compute_push_layout (sample_externals 8 8 (fun _ => 0)) (sample_device 9)
        (sample_shader gl_shader_stage.MESA_SHADER_GEOMETRY [push_load 70 20])
        (sample_prog_data (fun _ => 0)) sample_map).nir.num_uniforms = 28 :=
  ⟨(alignment_and_sizing (sample_externals 8 8 (fun _ => 0)) (sample_device 9)
      (sample_shader gl_shader_stage.MESA_SHADER_GEOMETRY [push_load 70 20])
      (sample_prog_data (fun _ => 0)) sample_map).2.2.2.2.2.2.1 (by decide),
   (((alignment_and_sizing (sample_externals 8 8 (fun _ => 0)) (sample_device 9)
      (sample_shader gl_shader_stage.MESA_SHADER_GEOMETRY [push_load 70 20])
      (sample_prog_data (fun _ => 0)) sample_map).2.2.2.2.2.2.2 (by decide)).1).trans
      (by decide)⟩

/-! ## C14: the output is fully overwritten -/

/-- C14: the final state does not depend on what `map->push_ranges` (or
`map->push_sha1`) held on entry: two calls that differ only there leave the
same `push_ranges` and the same `push_sha1`; and a slot the packer does not assign is
the all-zero descriptor: on the packed path every slot below the placed UBO
ranges and the push-constant range, on the simple path slots 1..3. -/
theorem push_ranges_fully_overwritten (e : externals) (pdevice : anv_physical_device)
    (nir : nir_shader) (prog_data : brw_stage_prog_data) (map : anv_pipeline_bind_map)
    (stale : Fin 4 → anv_push_range) (sha1 : Nat) :
    (anv_nir_compute_push_layout e pdevice nir prog_data
        { map with push_ranges := stale, push_sha1 := sha1 }).map.push_ranges =
      (anv_nir_compute_push_layout e pdevice nir prog_data map).map.push_ranges ∧
    (anv_nir_compute_push_layout e pdevice nir prog_data
        { map with push_ranges := stale, push_sha1 := sha1 }).map.push_sha1 =
      (anv_nir_compute_push_layout e pdevice nir prog_data map).map.push_sha1 ∧
    (packed_path pdevice nir = true →
      ∀ k : Fin 4,
        k.val + (nonempty_candidates
          (anv_nir_compute_push_layout e pdevice nir prog_data map).prog_data.ubo_ranges).length
          + (if (anv_nir_compute_push_layout e pdevice nir prog_data
              map).push_constant_range.length = 0 then 0 else 1) < 4 →
        (anv_nir_compute_push_layout e pdevice nir prog_data map).map.push_ranges k =
          empty_push_range) ∧
    (packed_path pdevice nir = false →
      ∀ k : Fin 4, k ≠ 0 →
        (anv_nir_compute_push_layout e pdevice nir prog_data map).map.push_ranges k =
          empty_push_range) := by
  refine ⟨?_, ?_, ?_, ?_⟩
  · cases hpath : packed_path pdevice nir with
    | true =>
      rw [(layout_packed e pdevice nir prog_data _ hpath).1,
        (layout_packed e pdevice nir prog_data map hpath).1]
      rfl
    | false =>
      rw [(layout_simple e pdevice nir prog_data _ hpath).1,
        (layout_simple e pdevice nir prog_data map hpath).1]
  · cases hpath : packed_path pdevice nir with
    | true =>
      simp only [anv_nir_compute_push_layout, hpath, if_true]
      rfl
    | false =>
      simp [anv_nir_compute_push_layout, hpath]
  · intro hpath k hk
    rw [layout_push_constant_range] at hk
    rw [layout_packed_slots e pdevice nir prog_data map hpath]
    have h1 : ¬ 4 ≤ k.val + (nonempty_candidates
        (anv_nir_compute_push_layout e pdevice nir prog_data map).prog_data.ubo_ranges).length := by
      omega
    have h2 : ¬ ((push_constant_range_of e nir).length ≠ 0 ∧ k.val + 1 + (nonempty_candidates
        (anv_nir_compute_push_layout e pdevice nir prog_data map).prog_data.ubo_ranges).length
          = 4) := by
      intro h
      rw [if_neg h.1] at hk
      omega
    simp only [packed_slot, h1, h2, if_false]
  · intro hpath k hk
    rw [(layout_simple e pdevice nir prog_data map hpath).1]
    simp [Function.update, hk]

/-! ## Lemmas: a second pass -/

theorem instr_loads_rewrite (push_start : Nat) (instr : nir_instr) :
    instr_loads (rewrite_instr push_start instr) = [] := by
  cases instr with
  | other_instr id => rfl
  | intrinsic intrin =>
    by_cases hop : intrin.intrinsic = nir_intrinsic_op.load_push_constant <;>
      simp [rewrite_instr, instr_loads, hop]

theorem function_loads_rewrite (push_start : Nat) (function : nir_function) :
    function_loads (rewrite_function push_start function) = [] := by
  cases himpl : function.impl with
  | none => simp [function_loads, rewrite_function, himpl]
  | some blocks =>
    simp only [function_loads, rewrite_function, himpl]
    rw [List.flatMap_eq_nil_iff]
    intro block hb
    obtain ⟨block0, _, rfl⟩ := List.mem_map.mp hb
    simp only [block_loads, rewrite_block]
    rw [List.flatMap_eq_nil_iff]
    intro instr hi
    obtain ⟨instr0, _, rfl⟩ := List.mem_map.mp hi
    exact instr_loads_rewrite push_start instr0

theorem push_loads_rewrite (push_start : Nat) (nir : nir_shader) :
    push_loads (rewrite_shader push_start nir) = [] := by
  simp only [push_loads, rewrite_shader]
  rw [List.flatMap_eq_nil_iff]
  intro function hf
  obtain ⟨function0, _, rfl⟩ := List.mem_map.mp hf
  exact function_loads_rewrite push_start function0

theorem push_loads_nir_after (e : externals) (pdevice : anv_physical_device) (nir : nir_shader) :
    push_loads (nir_after e pdevice nir) =
      if has_push_intrinsic nir then [] else push_loads nir := by
  cases h : has_push_intrinsic nir with
  | true =>
    simp only [nir_after, h, if_true]
    exact push_loads_rewrite (push_start_of e nir) nir
  | false =>
    simp only [nir_after, h]
    rfl

theorem has_push_intrinsic_nir_after (e : externals) (pdevice : anv_physical_device)
    (nir : nir_shader) : has_push_intrinsic (nir_after e pdevice nir) = false := by
  cases h : has_push_intrinsic nir with
  | true =>
    apply has_push_intrinsic_no_loads
    rw [push_loads_nir_after, h]
    rfl
  | false =>
    have hscan : scan_shader (nir_after e pdevice nir) = scan_shader nir := by
      rw [scan_shader_eq, scan_shader_eq, push_loads_nir_after, h]
      rfl
    unfold has_push_intrinsic at h ⊢
    rw [hscan]
    exact h

/-! ## C15: rewrite idempotence -/

/-- C15 (counterexample): a fragment shader with loads of bytes `[100, 116)`
and `[68, 72)`. The first invocation sets `num_uniforms` to 52; a second
invocation on the IR it left finds no load and sets `num_uniforms` to 0, so
the IR is not what it was. And after a first invocation on a module whose
only load has base 100 and range `2 ^ 32 - 50` (the end wraps to 50, below
the start) the `load_push_constant` is still there. -/
theorem second_invocation_resets_num_uniforms :
    (anv_nir_compute_push_layout (sample_externals 8 8 (fun _ => 0)) (sample_device 9)
        (sample_shader gl_shader_stage.MESA_SHADER_FRAGMENT [push_load 100 16, push_load 68 4])
        (sample_prog_data (fun _ => 0)) sample_map).nir.num_uniforms = 52 ∧
    (anv_nir_compute_push_layout (sample_externals 8 8 (fun _ => 0)) (sample_device 9)
        (anv_nir_compute_push_layout (sample_externals 8 8 (fun _ => 0)) (sample_device 9)
          (sample_shader gl_shader_stage.MESA_SHADER_FRAGMENT [push_load 100 16, push_load 68 4])
          (sample_prog_data (fun _ => 0)) sample_map).nir
        (sample_prog_data (fun _ => 0)) sample_map).nir.num_uniforms = 0 ∧
    (anv_nir_compute_push_layout (sample_externals 8 8 (fun _ => 0)) (sample_device 9)
        (anv_nir_compute_push_layout (sample_externals 8 8 (fun _ => 0)) (sample_device 9)
          (sample_shader gl_shader_stage.MESA_SHADER_FRAGMENT [push_load 100 16, push_load 68 4])
          (sample_prog_data (fun _ => 0)) sample_map).nir
        (sample_prog_data (fun _ => 0)) sample_map).nir ≠
      (anv_nir_compute_push_layout (sample_externals 8 8 (fun _ => 0)) (sample_device 9)
        (sample_shader gl_shader_stage.MESA_SHADER_FRAGMENT [push_load 100 16, push_load 68 4])
        (sample_prog_data (fun _ => 0)) sample_map).nir ∧
    push_loads
      (anv_nir_compute_push_layout (sample_externals 8 8 (fun _ => 0)) (sample_device 9)
        (sample_shader gl_shader_stage.MESA_SHADER_FRAGMENT [push_load 100 4294967246])
        (sample_prog_data (fun _ => 0)) sample_map).nir ≠ [] := by
  decide

/-- C15 (amended): for every module, a second invocation (with any device,
externals, program data and bind map) on the IR a first invocation produced
finds no interval to rewrite and leaves the stage and every function, block
and instruction as they were, so no `load_uniform` base changes again; of the
shader it changes `num_uniforms` only, which it recomputes. No
`load_push_constant` remains after the first invocation whenever that
invocation rewrote, which it does for every module with a load whose
`base + range` does not wrap 32 bits, or when the module had no load at all;
when it did not rewrite, the first invocation left the functions, and so the
loads, as they were. -/
theorem second_invocation_rewrites_nothing (e e2 : externals)
    (pdevice pdevice2 : anv_physical_device) (nir : nir_shader)
    (prog_data prog_data2 : brw_stage_prog_data) (map map2 : anv_pipeline_bind_map) :
    (anv_nir_compute_push_layout e2 pdevice2
        (anv_nir_compute_push_layout e pdevice nir prog_data map).nir prog_data2 map2).nir =
      { (anv_nir_compute_push_layout e pdevice nir prog_data map).nir with
        num_uniforms := num_uniforms_of e2 pdevice2
          (anv_nir_compute_push_layout e pdevice nir prog_data map).nir } ∧
    (anv_nir_compute_push_layout e2 pdevice2
        (anv_nir_compute_push_layout e pdevice nir prog_data map).nir prog_data2
        map2).nir.functions =
      (anv_nir_compute_push_layout e pdevice nir prog_data map).nir.functions ∧
    has_push_intrinsic (anv_nir_compute_push_layout e pdevice nir prog_data map).nir = false ∧
    (has_push_intrinsic nir = true →
      push_loads (anv_nir_compute_push_layout e pdevice nir prog_data map).nir = []) ∧
    (push_loads nir ≠ [] →
      (∀ intrin ∈ push_loads nir, intrin.base + intrin.range < 4294967296) →
      push_loads (anv_nir_compute_push_layout e pdevice nir prog_data map).nir = []) ∧
    (push_loads nir = [] →
      push_loads (anv_nir_compute_push_layout e pdevice nir prog_data map).nir = []) ∧
    (has_push_intrinsic nir = false →
      (anv_nir_compute_push_layout e pdevice nir prog_data map).nir.functions = nir.functions ∧
      push_loads (anv_nir_compute_push_layout e pdevice nir prog_data map).nir =
        push_loads nir) := by
  rw [layout_nir, layout_nir]
  have hno := has_push_intrinsic_nir_after e pdevice nir
  refine ⟨?_, ?_, hno, ?_, ?_, ?_, ?_⟩
  · generalize nir_after e pdevice nir = nir1 at hno
    simp only [nir_after, hno]
    rfl
  · generalize nir_after e pdevice nir = nir1 at hno
    simp only [nir_after, hno]
    rfl
  · intro h
    rw [push_loads_nir_after, h]
    rfl
  · intro hne hwrap
    rw [push_loads_nir_after, has_push_intrinsic_of_load nir hne hwrap]
    rfl
  · intro hloads
    rw [push_loads_nir_after, has_push_intrinsic_no_loads nir hloads]
    exact hloads
  · intro h
    refine ⟨?_, ?_⟩
    · simp only [nir_after, h]
      rfl
    · rw [push_loads_nir_after, h]
      rfl

/-- C15 (witness): the second invocation on the fragment shader with loads of
bytes `[100, 116)` and `[68, 72)` leaves the two rewritten loads as they
were. -/
theorem second_invocation_rewrites_nothing_witness :
    (anv_nir_compute_push_layout (sample_externals 8 8 (fun _ => 0)) (sample_device 7)
        (anv_nir_compute_push_layout (sample_externals 8 8 (fun _ => 0)) (sample_device 9)
          (sample_shader gl_shader_stage.MESA_SHADER_FRAGMENT [push_load 100 16, push_load 68 4])
          (sample_prog_data (fun _ => 0)) sample_map).nir
        (sample_prog_data (fun _ => 3)) sample_map).nir.functions =
      [{ impl := none },
       { impl := some [{ instrs :=
          [nir_instr.intrinsic
            { intrinsic := nir_intrinsic_op.load_uniform, base := 36, range := 16 },
           nir_instr.intrinsic
            { intrinsic := nir_intrinsic_op.load_uniform, base := 4, range := 4 }] }] }] :=
  ((second_invocation_rewrites_nothing (sample_externals 8 8 (fun _ => 0))
      (sample_externals 8 8 (fun _ => 0)) (sample_device 9) (sample_device 7)
      (sample_shader gl_shader_stage.MESA_SHADER_FRAGMENT [push_load 100 16, push_load 68 4])
      (sample_prog_data (fun _ => 0)) (sample_prog_data (fun _ => 3)) sample_map
      sample_map).2.1).trans (by decide)

/-! ## C16: the size the validator expects -/

/-- C16 (counterexample): generation 9, a push-constant range of one register
and candidates analysed as 0, 0, 40 and 40 registers. The capacity loop
writes the trimmed lengths 0, 0, 40, 23 back to `prog_data->ubo_ranges`, so
the validator's expected size is `1 + 63 = 64` (and its assertion holds),
not `1 + 80 = 81` as with the lengths as supplied. -/
theorem validator_counts_trimmed_lengths :
    prog_data_push_size
      (anv_nir_compute_push_layout (sample_externals 8 8 ![0, 0, 40, 40]) (sample_device 9)
        (sample_shader gl_shader_stage.MESA_SHADER_VERTEX [push_load 0 32])
        (sample_prog_data (fun _ => 0)) sample_map).prog_data = 64 ∧
    DIV_ROUND_UP
      (anv_nir_compute_push_layout (sample_externals 8 8 ![0, 0, 40, 40]) (sample_device 9)
        (sample_shader gl_shader_stage.MESA_SHADER_VERTEX [push_load 0 32])
        (sample_prog_data (fun _ => 0)) sample_map).prog_data.nr_params 8 +
      ((analysed_ubo_ranges (sample_externals 8 8 ![0, 0, 40, 40]) (sample_device 9)
          (sample_shader gl_shader_stage.MESA_SHADER_VERTEX [push_load 0 32]) 0).length +
       (analysed_ubo_ranges (sample_externals 8 8 ![0, 0, 40, 40]) (sample_device 9)
          (sample_shader gl_shader_stage.MESA_SHADER_VERTEX [push_load 0 32]) 1).length +
       (analysed_ubo_ranges (sample_externals 8 8 ![0, 0, 40, 40]) (sample_device 9)
          (sample_shader gl_shader_stage.MESA_SHADER_VERTEX [push_load 0 32]) 2).length +
       (analysed_ubo_ranges (sample_externals 8 8 ![0, 0, 40, 40]) (sample_device 9)
          (sample_shader gl_shader_stage.MESA_SHADER_VERTEX [push_load 0 32]) 3).length) = 81 ∧
    anv_nir_validate_push_layout
      (anv_nir_compute_push_layout (sample_externals 8 8 ![0, 0, 40, 40]) (sample_device 9)
        (sample_shader gl_shader_stage.MESA_SHADER_VERTEX [push_load 0 32])
        (sample_prog_data (fun _ => 0)) sample_map).prog_data
      (anv_nir_compute_push_layout (sample_externals 8 8 ![0, 0, 40, 40]) (sample_device 9)
        (sample_shader gl_shader_stage.MESA_SHADER_VERTEX [push_load 0 32])
        (sample_prog_data (fun _ => 0)) sample_map).map = true := by
  decide

/-- C16 (amended): for every output, the expected push size the validator
compares is, in `unsigned` arithmetic, `ceil(nr_params / 8)` plus the sum of
the four `ubo_ranges` lengths as the allocator left them in `prog_data`: on
the simple path the lengths held on entry, on the packed path the lengths
the capacity loop wrote back, not the lengths as analysed; with a
push-constant range of at most 64 registers (the UBO length field at most 31
bits wide and holding each analysed length) their sum is the analysed sum cut
down to what the push-constant range leaves of 64 registers, and nothing
wraps. -/
theorem validator_expected_size (e : externals) (pdevice : anv_physical_device)
    (nir : nir_shader) (prog_data : brw_stage_prog_data) (map : anv_pipeline_bind_map) :
    prog_data_push_size (anv_nir_compute_push_layout e pdevice nir prog_data map).prog_data =
      (DIV_ROUND_UP (anv_nir_compute_push_layout e pdevice nir prog_data map).prog_data.nr_params 8
        + (((anv_nir_compute_push_layout e pdevice nir prog_data map).prog_data.ubo_ranges
              0).length +
           ((anv_nir_compute_push_layout e pdevice nir prog_data map).prog_data.ubo_ranges
              1).length +
           ((anv_nir_compute_push_layout e pdevice nir prog_data map).prog_data.ubo_ranges
              2).length +
           ((anv_nir_compute_push_layout e pdevice nir prog_data map).prog_data.ubo_ranges
              3).length)) % 4294967296 ∧
    (packed_path pdevice nir = false →
      (anv_nir_compute_push_layout e pdevice nir prog_data map).prog_data.ubo_ranges =
        prog_data.ubo_ranges) ∧
    (packed_path pdevice nir = true →
      (anv_nir_compute_push_layout e pdevice nir prog_data map).prog_data.ubo_ranges =
        (trim_ubo_ranges e (push_constant_range_of e nir).length
          (analysed_ubo_ranges e pdevice nir)).2) ∧
    (packed_path pdevice nir = true →
      (push_constant_range_of e nir).length ≤ 64 →
      e.ubo_range_bits ≤ 31 →
      (∀ i, (analysed_ubo_ranges e pdevice nir i).length < 2 ^ e.ubo_range_bits) →
      ((anv_nir_compute_push_layout e pdevice nir prog_data map).prog_data.ubo_ranges 0).length +
        ((anv_nir_compute_push_layout e pdevice nir prog_data map).prog_data.ubo_ranges
          1).length +
        ((anv_nir_compute_push_layout e pdevice nir prog_data map).prog_data.ubo_ranges
          2).length +
        ((anv_nir_compute_push_layout e pdevice nir prog_data map).prog_data.ubo_ranges
          3).length =
        min (64 - (push_constant_range_of e nir).length)
          ((analysed_ubo_ranges e pdevice nir 0).length +
           (analysed_ubo_ranges e pdevice nir 1).length +
           (analysed_ubo_ranges e pdevice nir 2).length +
           (analysed_ubo_ranges e pdevice nir 3).length) ∧
      prog_data_push_size (anv_nir_compute_push_layout e pdevice nir prog_data map).prog_data =
        DIV_ROUND_UP
            (anv_nir_compute_push_layout e pdevice nir prog_data map).prog_data.nr_params 8 +
          min (64 - (push_constant_range_of e nir).length)
            ((analysed_ubo_ranges e pdevice nir 0).length +
             (analysed_ubo_ranges e pdevice nir 1).length +
             (analysed_ubo_ranges e pdevice nir 2).length +
             (analysed_ubo_ranges e pdevice nir 3).length)) := by
  have hsize : prog_data_push_size
      (anv_nir_compute_push_layout e pdevice nir prog_data map).prog_data =
      (DIV_ROUND_UP (anv_nir_compute_push_layout e pdevice nir prog_data map).prog_data.nr_params 8
        + (((anv_nir_compute_push_layout e pdevice nir prog_data map).prog_data.ubo_ranges
              0).length +
           ((anv_nir_compute_push_layout e pdevice nir prog_data map).prog_data.ubo_ranges
              1).length +
           ((anv_nir_compute_push_layout e pdevice nir prog_data map).prog_data.ubo_ranges
              2).length +
           ((anv_nir_compute_push_layout e pdevice nir prog_data map).prog_data.ubo_ranges
              3).length)) % 4294967296 := by
    simp only [prog_data_push_size, List.foldl_cons, List.foldl_nil]
    omega
  refine ⟨hsize, fun hpath => (layout_simple e pdevice nir prog_data map hpath).2.1,
    fun hpath => (layout_packed e pdevice nir prog_data map hpath).2.1, ?_⟩
  intro hpath hp hbits hfit
  obtain ⟨_, hspec⟩ := trim_ubo_ranges_spec e (push_constant_range_of e nir).length
    (analysed_ubo_ranges e pdevice nir) hp hfit hbits
  have hubo := (layout_packed e pdevice nir prog_data map hpath).2.1
  have v3 : ((3 : Fin 4) : Nat) = 3 := rfl
  have hsum : ((anv_nir_compute_push_layout e pdevice nir prog_data map).prog_data.ubo_ranges
        0).length +
      ((anv_nir_compute_push_layout e pdevice nir prog_data map).prog_data.ubo_ranges 1).length +
      ((anv_nir_compute_push_layout e pdevice nir prog_data map).prog_data.ubo_ranges 2).length +
      ((anv_nir_compute_push_layout e pdevice nir prog_data map).prog_data.ubo_ranges 3).length =
      min (64 - (push_constant_range_of e nir).length)
        ((analysed_ubo_ranges e pdevice nir 0).length +
         (analysed_ubo_ranges e pdevice nir 1).length +
         (analysed_ubo_ranges e pdevice nir 2).length +
         (analysed_ubo_ranges e pdevice nir 3).length) := by
    rw [hubo, hspec 0, hspec 1, hspec 2, hspec 3]
    simp [clamp_lengths, v3]
    omega
  refine ⟨hsum, ?_⟩
  have hregs : DIV_ROUND_UP
      (anv_nir_compute_push_layout e pdevice nir prog_data map).prog_data.nr_params 8 ≤
      536870912 := by
    unfold DIV_ROUND_UP
    omega
  rw [hsize, hsum]
  omega

/-- C16 (witness): the push-constant range of one register and the
candidates 0, 0, 40, 40: the expected size is `1 + 63`. -/
theorem validator_expected_size_witness :
    prog_data_push_size
      (anv_nir_compute_push_layout (sample_externals 8 8 ![0, 0, 40, 40]) (sample_device 9)
        (sample_shader gl_shader_stage.MESA_SHADER_VERTEX [push_load 0 32])
        (sample_prog_data (fun _ => 0)) sample_map).prog_data = 1 + 63 :=
  ((validator_expected_size (sample_externals 8 8 ![0, 0, 40, 40]) (sample_device 9)
      (sample_shader gl_shader_stage.MESA_SHADER_VERTEX [push_load 0 32])
      (sample_prog_data (fun _ => 0)) sample_map).2.2.2 (by decide) (by decide) (by decide)
      (by decide)).2.trans (by decide)

/-! ## C17: fingerprint -/

/-- C17: `push_sha1` is the digest of the final `push_ranges` array and of
nothing else; two invocations with the same digest routine whose final
`push_ranges` arrays are equal leave equal fingerprints, whatever else
differs (shader, device, field widths, analysis, program data, bind map). -/
theorem fingerprint_of_final_push_ranges (e1 e2 : externals)
    (pdevice1 pdevice2 : anv_physical_device) (nir1 nir2 : nir_shader)
    (prog_data1 prog_data2 : brw_stage_prog_data) (map1 map2 : anv_pipeline_bind_map)
    (hsha : e1._mesa_sha1_compute = e2._mesa_sha1_compute)
    (hranges : (anv_nir_compute_push_layout e1 pdevice1 nir1 prog_data1 map1).map.push_ranges =
      (anv_nir_compute_push_layout e2 pdevice2 nir2 prog_data2 map2).map.push_ranges) :
    (anv_nir_compute_push_layout e1 pdevice1 nir1 prog_data1 map1).map.push_sha1 =
      e1._mesa_sha1_compute
        (anv_nir_compute_push_layout e1 pdevice1 nir1 prog_data1 map1).map.push_ranges ∧
    (anv_nir_compute_push_layout e1 pdevice1 nir1 prog_data1 map1).map.push_sha1 =
      (anv_nir_compute_push_layout e2 pdevice2 nir2 prog_data2 map2).map.push_sha1 := by
  have h : ∀ (e : externals) (pdevice : anv_physical_device) (nir : nir_shader)
      (prog_data : brw_stage_prog_data) (map : anv_pipeline_bind_map),
      (anv_nir_compute_push_layout e pdevice nir prog_data map).map.push_sha1 =
        e._mesa_sha1_compute
          (anv_nir_compute_push_layout e pdevice nir prog_data map).map.push_ranges := by
    intro e pdevice nir prog_data map
    unfold anv_nir_compute_push_layout
    split <;> rfl
  refine ⟨h _ _ _ _ _, ?_⟩
  rw [h e1, h e2, hranges, hsha]

/-- C17 (witness): generation 9 with candidates analysed as 0, 0, 0, 63 and
a load of bytes `[0, 32)`, against a generation 8 run with candidates
0, 0, 0, 200, a load of bytes `[0, 20)` in another stage and other stale
data: the final arrays are equal and so are the fingerprints. -/
theorem fingerprint_of_final_push_ranges_witness :
    (anv_nir_compute_push_layout (sample_externals 8 8 ![0, 0, 0, 63]) (sample_device 9)
        (sample_shader gl_shader_stage.MESA_SHADER_VERTEX [push_load 0 32])
        (sample_prog_data (fun _ => 0)) sample_map).map.push_sha1 =
      (anv_nir_compute_push_layout (sample_externals 8 8 ![0, 0, 0, 200]) (sample_device 8)
        (sample_shader gl_shader_stage.MESA_SHADER_FRAGMENT
          [push_load 0 20, nir_instr.other_instr 3])
        (sample_prog_data (fun _ => 5))
        { sample_map with push_ranges := fun _ => empty_push_range }).map.push_sha1 :=
  (fingerprint_of_final_push_ranges (sample_externals 8 8 ![0, 0, 0, 63])
    (sample_externals 8 8 ![0, 0, 0, 200]) (sample_device 9) (sample_device 8)
    (sample_shader gl_shader_stage.MESA_SHADER_VERTEX [push_load 0 32])
    (sample_shader gl_shader_stage.MESA_SHADER_FRAGMENT [push_load 0 20, nir_instr.other_instr 3])
    (sample_prog_data (fun _ => 0)) (sample_prog_data (fun _ => 5)) sample_map
    { sample_map with push_ranges := fun _ => empty_push_range } rfl
    (funext (fun k => by revert k; decide))).2

/-! ## C18: registers counted by the sizer and by the packer -/

/-- C18 (counterexample): a scalar vertex stage whose only push-constant load
has base 0 and range `2 ^ 32 - 20`. The alignment does not wrap
(`num_uniforms = push_end - push_start`), the validator derives `2 ^ 27`
registers from `nr_params`, but `DIV_ROUND_UP(push_end - push_start, 32)`
adds 31 in `unsigned` arithmetic, wraps, and gives the length 0. -/
theorem register_counts_differ_at_the_top :
    (anv_nir_compute_push_layout (sample_externals 8 32 (fun _ => 0)) (sample_device 7)
        (sample_shader gl_shader_stage.MESA_SHADER_VERTEX [push_load 0 4294967276])
        (sample_prog_data (fun _ => 0)) sample_map).nir.num_uniforms =
      (anv_nir_compute_push_layout (sample_externals 8 32 (fun _ => 0)) (sample_device 7)
        (sample_shader gl_shader_stage.MESA_SHADER_VERTEX [push_load 0 4294967276])
        (sample_prog_data (fun _ => 0)) sample_map).push_end -
      (anv_nir_compute_push_layout (sample_externals 8 32 (fun _ => 0)) (sample_device 7)
        (sample_shader gl_shader_stage.MESA_SHADER_VERTEX [push_load 0 4294967276])
        (sample_prog_data (fun _ => 0)) sample_map).push_start ∧
    DIV_ROUND_UP
      (anv_nir_compute_push_layout (sample_externals 8 32 (fun _ => 0)) (sample_device 7)
        (sample_shader gl_shader_stage.MESA_SHADER_VERTEX [push_load 0 4294967276])
        (sample_prog_data (fun _ => 0)) sample_map).prog_data.nr_params 8 = 134217728 ∧
    DIV_ROUND_UP
      ((anv_nir_compute_push_layout (sample_externals 8 32 (fun _ => 0)) (sample_device 7)
        (sample_shader gl_shader_stage.MESA_SHADER_VERTEX [push_load 0 4294967276])
        (sample_prog_data (fun _ => 0)) sample_map).push_end -
      (anv_nir_compute_push_layout (sample_externals 8 32 (fun _ => 0)) (sample_device 7)
        (sample_shader gl_shader_stage.MESA_SHADER_VERTEX [push_load 0 4294967276])
        (sample_prog_data (fun _ => 0)) sample_map).push_start) 32 = 0 ∧
    (anv_nir_compute_push_layout (sample_externals 8 32 (fun _ => 0)) (sample_device 7)
        (sample_shader gl_shader_stage.MESA_SHADER_VERTEX [push_load 0 4294967276])
        (sample_prog_data (fun _ => 0)) sample_map).push_constant_range.length = 0 := by
  decide

/-- C18 (amended): whenever `push_end - push_start + 31` does not wrap 32
bits, for both granularities 4 and 16, `DIV_ROUND_UP(nr_params, 8)` with
`nr_params = ALIGN(push_end - push_start, g) / 4` equals
`DIV_ROUND_UP(push_end - push_start, 32)`, the exact rounded-up quotient; it
is the length the packer stores when that length fits the slot length
field. -/
theorem sizer_and_packer_agree (e : externals) (pdevice : anv_physical_device)
    (nir : nir_shader) (prog_data : brw_stage_prog_data) (map : anv_pipeline_bind_map)
    (hsize : push_size_of e nir + 31 < 4294967296) :
    (anv_nir_compute_push_layout e pdevice nir prog_data map).push_start ≤
      (anv_nir_compute_push_layout e pdevice nir prog_data map).push_end ∧
    (anv_nir_compute_push_layout e pdevice nir prog_data map).prog_data.nr_params =
      ALIGN ((anv_nir_compute_push_layout e pdevice nir prog_data map).push_end -
        (anv_nir_compute_push_layout e pdevice nir prog_data map).push_start)
        (align_of pdevice nir) / 4 ∧
    (align_of pdevice nir = 4 ∨ align_of pdevice nir = 16) ∧
    DIV_ROUND_UP (anv_nir_compute_push_layout e pdevice nir prog_data map).prog_data.nr_params 8 =
      DIV_ROUND_UP ((anv_nir_compute_push_layout e pdevice nir prog_data map).push_end -
        (anv_nir_compute_push_layout e pdevice nir prog_data map).push_start) 32 ∧
    DIV_ROUND_UP ((anv_nir_compute_push_layout e pdevice nir prog_data map).push_end -
        (anv_nir_compute_push_layout e pdevice nir prog_data map).push_start) 32 =
      ((anv_nir_compute_push_layout e pdevice nir prog_data map).push_end -
        (anv_nir_compute_push_layout e pdevice nir prog_data map).push_start + 31) / 32 ∧
    (∀ d : Nat, d + 31 < 4294967296 →
      DIV_ROUND_UP (ALIGN d 4 % 4294967296 / 4) 8 = DIV_ROUND_UP d 32 ∧
      DIV_ROUND_UP (ALIGN d 16 % 4294967296 / 4) 8 = DIV_ROUND_UP d 32) ∧
    (DIV_ROUND_UP ((anv_nir_compute_push_layout e pdevice nir prog_data map).push_end -
        (anv_nir_compute_push_layout e pdevice nir prog_data map).push_start) 32 <
        2 ^ e.push_range_bits →
      (anv_nir_compute_push_layout e pdevice nir prog_data map).push_constant_range.length =
        DIV_ROUND_UP
          (anv_nir_compute_push_layout e pdevice nir prog_data map).prog_data.nr_params 8) := by
  have hle := (push_start_le_scan e nir).2
  have hd := push_size_eq e nir (push_end_lt e nir)
  have halign : align_of pdevice nir = 4 ∨ align_of pdevice nir = 16 := by
    unfold align_of
    split <;> simp
  have hnum : num_uniforms_of e pdevice nir =
      ALIGN (push_end_of e nir - push_start_of e nir) (align_of pdevice nir) := by
    unfold num_uniforms_of
    rw [hd] at hsize ⊢
    apply Nat.mod_eq_of_lt
    unfold ALIGN
    rcases halign with h | h <;> rw [h] <;> omega
  have hregs : DIV_ROUND_UP (num_uniforms_of e pdevice nir / 4) 8 =
      DIV_ROUND_UP (push_end_of e nir - push_start_of e nir) 32 := by
    unfold num_uniforms_of
    rw [params_registers _ _ halign hsize, hd]
  rw [layout_push_start, layout_push_end, layout_nr_params, layout_push_constant_range]
  refine ⟨hle, by rw [hnum], halign, hregs, ?_, ?_, ?_⟩
  · rw [hd] at hsize
    unfold DIV_ROUND_UP
    rw [show push_end_of e nir - push_start_of e nir + 32 - 1 =
      push_end_of e nir - push_start_of e nir + 31 from rfl, Nat.mod_eq_of_lt hsize]
  · intro d hdlt
    exact ⟨params_registers d 4 (Or.inl rfl) hdlt, params_registers d 16 (Or.inr rfl) hdlt⟩
  · intro hfit
    rw [hregs]
    simp only [push_constant_range_of, hd]
    exact Nat.mod_eq_of_lt hfit

/-- C18 (witness): a load of bytes `[70, 90)`: 26 bytes from `push_start = 64`
are one register for the sizer and for the packer. -/
theorem sizer_and_packer_agree_witness :
    DIV_ROUND_UP
      (anv_nir_compute_push_layout (sample_externals 8 8 (fun _ => 0)) (sample_device 9)
        (sample_shader gl_shader_stage.MESA_SHADER_GEOMETRY [push_load 70 20])
        (sample_prog_data (fun _ => 0)) sample_map).prog_data.nr_params 8 =
    DIV_ROUND_UP
      ((anv_nir_compute_push_layout (sample_externals 8 8 (fun _ => 0)) (sample_device 9)
        (sample_shader gl_shader_stage.MESA_SHADER_GEOMETRY [push_load 70 20])
        (sample_prog_data (fun _ => 0)) sample_map).push_end -
      (anv_nir_compute_push_layout (sample_externals 8 8 (fun _ => 0)) (sample_device 9)
        (sample_shader gl_shader_stage.MESA_SHADER_GEOMETRY [push_load 70 20])
        (sample_prog_data (fun _ => 0)) sample_map).push_start) 32 :=
  (sizer_and_packer_agree (sample_externals 8 8 (fun _ => 0)) (sample_device 9)
    (sample_shader gl_shader_stage.MESA_SHADER_GEOMETRY [push_load 70 20])
    (sample_prog_data (fun _ => 0)) sample_map (by decide)).2.2.2.1

/-! ## Lemmas: what the capacity loop leaves of an empty range -/

theorem nir_after_functions_relocate (e : externals) (pdevice : anv_physical_device)
    (nir : nir_shader) (hne : push_loads nir ≠ [])
    (hwrap : ∀ intrin ∈ push_loads nir, intrin.base + intrin.range < 4294967296) :
    (nir_after e pdevice nir).functions =
      nir.functions.map (relocate_function (push_start_of e nir)) := by
  simp only [nir_after, has_push_intrinsic_of_load nir hne hwrap, if_true, rewrite_shader]
  apply List.map_congr_left
  intro function hf
  apply rewrite_function_eq_relocate (push_start_of e nir) nir _ function hf
  intro intrin hmem
  have h1 := (push_start_le_scan e nir).1
  have h2 := (scan_shader_bounds nir intrin hmem).1
  have h3 := hwrap intrin hmem
  exact ⟨by omega, by omega⟩

/-- C20 (counterexample): two fragment shaders on the simple path. With one
load of base 16 and range `2 ^ 32 - 17`, `push_end - push_start` is
`2 ^ 32 - 1` and `num_uniforms` wraps to 0, below it. With loads of bytes
`[0, 16)` and of base 100 and range `2 ^ 32 - 50` (whose end wraps to 50),
the second rewritten load keeps base 100 and its range, far above
`push_end - push_start = 50`. -/
theorem rewritten_load_outside_the_storage :
    ((anv_nir_compute_push_layout (sample_externals 8 32 (fun _ => 0)) (sample_device 7)
        (sample_shader gl_shader_stage.MESA_SHADER_FRAGMENT [push_load 16 4294967279])
        (sample_prog_data (fun _ => 0)) sample_map).push_end -
      (anv_nir_compute_push_layout (sample_externals 8 32 (fun _ => 0)) (sample_device 7)
        (sample_shader gl_shader_stage.MESA_SHADER_FRAGMENT [push_load 16 4294967279])
        (sample_prog_data (fun _ => 0)) sample_map).push_start = 4294967295 ∧
     (anv_nir_compute_push_layout (sample_externals 8 32 (fun _ => 0)) (sample_device 7)
        (sample_shader gl_shader_stage.MESA_SHADER_FRAGMENT [push_load 16 4294967279])
        (sample_prog_data (fun _ => 0)) sample_map).nir.num_uniforms = 0) ∧
    ((anv_nir_compute_push_layout (sample_externals 8 32 (fun _ => 0)) (sample_device 7)
        (sample_shader gl_shader_stage.MESA_SHADER_FRAGMENT
          [push_load 0 16, push_load 100 4294967246])
        (sample_prog_data (fun _ => 0)) sample_map).nir.functions =
      [{ impl := none },
       { impl := some [{ instrs :=
          [nir_instr.intrinsic
            { intrinsic := nir_intrinsic_op.load_uniform, base := 0, range := 16 },
           nir_instr.intrinsic
            { intrinsic := nir_intrinsic_op.load_uniform, base := 100,
              range := 4294967246 }] }] }] ∧
     (anv_nir_compute_push_layout (sample_externals 8 32 (fun _ => 0)) (sample_device 7)
        (sample_shader gl_shader_stage.MESA_SHADER_FRAGMENT
          [push_load 0 16, push_load 100 4294967246])
        (sample_prog_data (fun _ => 0)) sample_map).push_end -
      (anv_nir_compute_push_layout (sample_externals 8 32 (fun _ => 0)) (sample_device 7)
        (sample_shader gl_shader_stage.MESA_SHADER_FRAGMENT
          [push_load 0 16, push_load 100 4294967246])
        (sample_prog_data (fun _ => 0)) sample_map).push_start = 50) := by
  decide

/-- C20 (amended): for every module with at least one push-constant load,
when no `base + range` wraps 32 bits, `push_end - push_start` plus the
granularity does not exceed `2 ^ 32` and, for a compute stage, the scanned
end is at most the reserved offset (itself below `2 ^ 32`): every load is
rewritten to `base - push_start` with
`(base - push_start) + range <= push_end - push_start <= num_uniforms`
and `num_uniforms = 4 * nr_params`. -/
theorem rewritten_loads_inside_storage (e : externals) (pdevice : anv_physical_device)
    (nir : nir_shader) (prog_data : brw_stage_prog_data) (map : anv_pipeline_bind_map)
    (hne : push_loads nir ≠ [])
    (hwrap : ∀ intrin ∈ push_loads nir, intrin.base + intrin.range < 4294967296)
    (hsize : push_size_of e nir + align_of pdevice nir ≤ 4294967296)
    (hcompute : is_compute nir = true →
      (scan_shader nir).2 ≤ e.subgroup_id_offset ∧ e.subgroup_id_offset < 4294967296) :
    (anv_nir_compute_push_layout e pdevice nir prog_data map).nir.functions =
      nir.functions.map
        (relocate_function (anv_nir_compute_push_layout e pdevice nir prog_data map).push_start) ∧
    (∀ intrin ∈ push_loads nir,
      (anv_nir_compute_push_layout e pdevice nir prog_data map).push_start ≤ intrin.base ∧
      (intrin.base - (anv_nir_compute_push_layout e pdevice nir prog_data map).push_start) +
          intrin.range ≤
        (anv_nir_compute_push_layout e pdevice nir prog_data map).push_end -
          (anv_nir_compute_push_layout e pdevice nir prog_data map).push_start) ∧
    (anv_nir_compute_push_layout e pdevice nir prog_data map).push_end -
        (anv_nir_compute_push_layout e pdevice nir prog_data map).push_start ≤
      (anv_nir_compute_push_layout e pdevice nir prog_data map).nir.num_uniforms ∧
    (anv_nir_compute_push_layout e pdevice nir prog_data map).nir.num_uniforms =
      4 * (anv_nir_compute_push_layout e pdevice nir prog_data map).prog_data.nr_params := by
  have hd := push_size_eq e nir (push_end_lt e nir)
  have halign : align_of pdevice nir = 4 ∨ align_of pdevice nir = 16 := by
    unfold align_of
    split <;> simp
  have hnum : num_uniforms_of e pdevice nir =
      ALIGN (push_end_of e nir - push_start_of e nir) (align_of pdevice nir) := by
    unfold num_uniforms_of
    rw [hd] at hsize ⊢
    apply Nat.mod_eq_of_lt
    unfold ALIGN
    rcases halign with h | h <;> rw [h] at hsize ⊢ <;> omega
  have hnir : (nir_after e pdevice nir).num_uniforms = num_uniforms_of e pdevice nir := by
    simp [nir_after]
  have hend : (scan_shader nir).2 ≤ push_end_of e nir := by
    unfold push_end_of
    cases hc : is_compute nir with
    | true =>
      obtain ⟨h1, h2⟩ := hcompute hc
      simp only [if_true]
      rw [Nat.mod_eq_of_lt h2]
      exact h1
    | false => simp
  rw [layout_push_start, layout_push_end, layout_nir, layout_nr_params, hnir, hnum]
  refine ⟨nir_after_functions_relocate e pdevice nir hne hwrap, ?_, ?_, ?_⟩
  · intro intrin hmem
    have h1 := (push_start_le_scan e nir).1
    have h2 := scan_shader_bounds nir intrin hmem
    rw [Nat.mod_eq_of_lt (hwrap intrin hmem)] at h2
    omega
  · unfold ALIGN
    rcases halign with h | h <;> rw [h] <;> omega
  · unfold ALIGN
    rcases halign with h | h <;> rw [h] <;> omega

/-- C20 (witness): a compute shader with loads at bytes `[100, 116)` and
`[68, 72)` under the subgroup id at offset 140: the storage holds 76 bytes
from `push_start = 64`. -/
theorem rewritten_loads_inside_storage_witness :
    (anv_nir_compute_push_layout (sample_externals 8 8 (fun _ => 0)) (sample_device 9)
        (sample_shader gl_shader_stage.MESA_SHADER_COMPUTE [push_load 100 16, push_load 68 4])
        (sample_prog_data (fun _ => 0)) sample_map).nir.num_uniforms =
      4 * (anv_nir_compute_push_layout (sample_externals 8 8 (fun _ => 0)) (sample_device 9)
        (sample_shader gl_shader_stage.MESA_SHADER_COMPUTE [push_load 100 16, push_load 68 4])
        (sample_prog_data (fun _ => 0)) sample_map).prog_data.nr_params :=
  (rewritten_loads_inside_storage (sample_externals 8 8 (fun _ => 0)) (sample_device 9)
    (sample_shader gl_shader_stage.MESA_SHADER_COMPUTE [push_load 100 16, push_load 68 4])
    (sample_prog_data (fun _ => 0)) sample_map (by decide) (by decide) (by decide)
    (by decide)).2.2.2

end Anv
